import Mathlib

/-!
VideoFrameTransfer (PlusDataCollection/BlackMagic)

A shallow embedding of `VideoFrameTransfer.cpp`: the process-wide static members become a
`Statics` record that every operation receives and returns, each call into the graphics
driver, the DVP library or the operating system is recorded in a trace together with the
answer it gave, and the answers themselves are parameters of the operations.

Machine integers are natural numbers; `unsigned`, `uint32_t` and `unsigned long` arithmetic
is reduced modulo `2^32`, `SIZE_T` arithmetic modulo the platform's word size.
-/

namespace BlackMagic

/-! ## Basic types -/

/-- Modulus of `unsigned`, `uint32_t`, `GLuint` and (on Windows) `unsigned long`. -/
def UINT32 : Nat := 4294967296

/-- Target platform: it fixes the width of `SIZE_T`. -/
inductive Platform
  | win32
  | x64
  deriving DecidableEq, Repr

/-- Modulus of `SIZE_T` arithmetic. -/
def Platform.sizeMod : Platform → Nat
  | .win32 => 4294967296
  | .x64 => 18446744073709551616

/-- Subtraction of two `SIZE_T` values. -/
def Platform.sub (p : Platform) (a b : Nat) : Nat :=
  (a % p.sizeMod + p.sizeMod - b % p.sizeMod) % p.sizeMod

/-- Addition of two `SIZE_T` values. -/
def Platform.add (p : Platform) (a b : Nat) : Nat :=
  (a + b) % p.sizeMod

/-- Modelled from the spec: the enumeration `VideoFrameTransfer::Direction` is declared in
`VideoFrameTransfer.h`, which is not among the files; the spec gives it as
`direction: {CPUtoGPU, GPUtoCPU}`, the two names the source compares `mDirection` with. -/
inductive Direction
  | CPUtoGPU
  | GPUtoCPU
  deriving DecidableEq, Repr

/-- Status code of a DVP call. -/
abbrev DVPStatus := Nat

/-- The success status of the DVP library, `DVP_STATUS_OK` of its header. -/
def DVP_STATUS_OK : DVPStatus := 0

/-- The value `glGetError` reports when no error is recorded, `GL_NO_ERROR` of the OpenGL
headers. -/
def GL_NO_ERROR : Nat := 0

/-- Answer of `glClientWaitSync` when the timeout ran out before the fence was signalled. -/
def GL_TIMEOUT_EXPIRED : Nat := 0x911B

/-- Answer of `glClientWaitSync` when the fence was signalled within the timeout. -/
def GL_CONDITION_SATISFIED : Nat := 0x911C

/-- Answer of `glClientWaitSync` when the fence was signalled before the call. -/
def GL_ALREADY_SIGNALED : Nat := 0x911A

/-- The timeout value with which DVP waits without bound. -/
def DVP_TIMEOUT_IGNORED : Nat := 0xFFFFFFFFFFFFFFFF

/-- Buffer targets used with `glBindBuffer` and `glBufferData`. -/
inductive BufferTarget
  | GL_EXTERNAL_VIRTUAL_MEMORY_BUFFER_AMD
  | GL_PIXEL_UNPACK_BUFFER
  | GL_PIXEL_PACK_BUFFER
  deriving DecidableEq, Repr

/-- The two strings `glGetString` is asked for. -/
inductive StringName
  | GL_RENDERER
  | GL_EXTENSIONS
  deriving DecidableEq, Repr

/-- The record `DVPSysmemBufferDesc` as the constructor fills it (format `DVP_BGRA`,
type `DVP_UNSIGNED_BYTE` are constant and left out). -/
structure DVPSysmemBufferDesc where
  width : Nat
  height : Nat
  stride : Nat
  size : Nat
  bufAddr : Nat
  deriving DecidableEq, Repr

/-- The six constants `dvpGetRequiredConstantsGLCtx` reports. -/
structure DvpConstants where
  bufferAddrAlignment : Nat
  bufferGpuStrideAlignment : Nat
  semaphoreAddrAlignment : Nat
  semaphoreAllocSize : Nat
  semaphorePayloadOffset : Nat
  semaphorePayloadSize : Nat
  deriving DecidableEq, Repr

/-- One call that leaves the module, with the arguments it was given and the answer it got. -/
inductive Call
  | glGetString (name : StringName)
  | GetCurrentProcessId
  | OpenProcess (handle : Nat)
  | GetProcessWorkingSetSize (answer : Option (Nat × Nat))
  | SetProcessWorkingSetSize (newMin newMax : Nat) (ok : Bool)
  | CloseHandle (handle : Nat)
  | OutputDebugStringA
  | ExitProcess (code : Nat)
  | dvpInitGLContext (status : DVPStatus)
  | dvpGetRequiredConstantsGLCtx (status : DVPStatus)
  | dvpCreateGPUTextureGL (texture : Nat) (status : DVPStatus) (handle : Nat)
  | VirtualLock (address size : Nat) (ok : Bool)
  | VirtualUnlock (address size : Nat)
  | aligned_malloc (size alignment : Nat) (pointer : Nat)
  | aligned_free (pointer : Nat)
  | dvpImportSyncObject (sem : Nat) (status : DVPStatus) (handle : Nat)
  | dvpFreeSyncObject (handle : Nat) (status : DVPStatus)
  | dvpCreateBuffer (desc : DVPSysmemBufferDesc) (status : DVPStatus) (handle : Nat)
  | dvpBindToGLCtx (handle : Nat) (status : DVPStatus)
  | dvpUnbindFromGLCtx (handle : Nat) (status : DVPStatus)
  | dvpDestroyBuffer (handle : Nat) (status : DVPStatus)
  | dvpBegin
  | dvpEnd
  | dvpMapBufferWaitDVP (handle : Nat)
  | dvpMapBufferEndDVP (handle : Nat)
  | dvpMemcpyLined (src srcSync srcAcquireValue timeout dst dstSync dstReleaseValue
      startingLine numberOfLines : Nat) (status : DVPStatus)
  | dvpSyncObjClientWaitComplete (sync timeout : Nat)
  | dvpMapBufferWaitAPI (handle : Nat)
  | dvpMapBufferEndAPI (handle : Nat)
  | glGenBuffers (handle : Nat)
  | glBindBuffer (target : BufferTarget) (handle : Nat)
  | glBufferData (target : BufferTarget) (size address : Nat)
  | glGetError (error : Nat)
  | glDeleteBuffers (handle : Nat)
  | glEnableTexture2D
  | glDisableTexture2D
  | glBindTexture (texture : Nat)
  | glTexSubImage2D (width height : Nat)
  | glReadPixels (width height : Nat)
  | glFenceSync
  | glClientWaitSync (timeoutNs : Nat) (answer : Nat)
  | glDeleteSync
  deriving DecidableEq, Repr

/-- How a function of the module ends: it returns a value, throws `std::runtime_error`,
ends the process through `ExitProcess` (the `DVP_CHECK` rule), or dereferences a null
pointer. -/
inductive Outcome (α : Type)
  | ret (a : α)
  | thrown (message : String)
  | exited (code : Nat)
  | nullDeref
  deriving DecidableEq, Repr

/-- The static members of `VideoFrameTransfer` and the static locals `dwMin`, `dwMax`
of `initializeMemoryLocking`: the process-wide state of the module. -/
structure Statics where
  mInitialized : Bool
  mUseDvp : Bool
  mWidth : Nat
  mHeight : Nat
  mCaptureTexture : Nat
  mDvpCaptureTextureHandle : Nat
  mDvpPlaybackTextureHandle : Nat
  mBufferAddrAlignment : Nat
  mBufferGpuStrideAlignment : Nat
  mSemaphoreAddrAlignment : Nat
  mSemaphoreAllocSize : Nat
  mSemaphorePayloadOffset : Nat
  mSemaphorePayloadSize : Nat
  dwMin : Nat
  dwMax : Nat
  deriving DecidableEq, Repr

/-- The static initialisers: every flag false, every number zero. -/
def Statics.initial : Statics :=
  { mInitialized := false, mUseDvp := false, mWidth := 0, mHeight := 0, mCaptureTexture := 0,
    mDvpCaptureTextureHandle := 0, mDvpPlaybackTextureHandle := 0, mBufferAddrAlignment := 0,
    mBufferGpuStrideAlignment := 0, mSemaphoreAddrAlignment := 0, mSemaphoreAllocSize := 0,
    mSemaphorePayloadOffset := 0, mSemaphorePayloadSize := 0, dwMin := 0, dwMax := 0 }

/-- Result of running a static function: how it ended, the process-wide state it left and
the calls it issued, in order. -/
structure Run (α : Type) where
  out : Outcome α
  statics : Statics
  trace : List Call
  deriving DecidableEq, Repr

/-! ## Capability detection -/

/-- Whether `needle` stands at the very start of `hay`. -/
def startsWith : List Char → List Char → Bool
  | [], _ => true
  | _ :: _, [] => false
  | n :: ns, h :: hs => n == h && startsWith ns hs

/-- The C library's `strstr(hay, needle)`: the offset of the first occurrence of `needle`
in `hay`, or `none` for the null pointer when there is none. -/
def strstr : List Char → List Char → Option Nat
  | [], needle => if startsWith needle [] then some 0 else none
  | h :: hs, needle =>
    if startsWith needle (h :: hs) then some 0
    else (strstr hs needle).map (· + 1)

/-- The marker looked for in the renderer string. -/
def quadroMarker : List Char := ['Q', 'u', 'a', 'd', 'r', 'o']

/-- The extension name looked for in the extension string. -/
def amdPinnedMarker : List Char :=
  ['G', 'L', '_', 'A', 'M', 'D', '_', 'p', 'i', 'n', 'n', 'e', 'd', '_',
   'm', 'e', 'm', 'o', 'r', 'y']

/-- The two strings the graphics context answers `glGetString` with. -/
structure GLContext where
  renderer : List Char
  extensions : List Char
  deriving DecidableEq, Repr

/-- The function `VideoFrameTransfer::isNvidiaDvpAvailable`: result and calls. -/
def VideoFrameTransfer.isNvidiaDvpAvailable (ctx : GLContext) : Bool × List Call :=
  ((strstr ctx.renderer quadroMarker).isSome, [Call.glGetString .GL_RENDERER])

/-- The function `VideoFrameTransfer::isAMDPinnedMemoryAvailable`: result and calls. -/
def VideoFrameTransfer.isAMDPinnedMemoryAvailable (ctx : GLContext) : Bool × List Call :=
  ((strstr ctx.extensions amdPinnedMarker).isSome, [Call.glGetString .GL_EXTENSIONS])

/-- The function `VideoFrameTransfer::checkFastMemoryTransferAvailable`; the second query is
only made when the first one answers false, as `||` evaluates. -/
def VideoFrameTransfer.checkFastMemoryTransferAvailable (ctx : GLContext) : Bool × List Call :=
  let a := VideoFrameTransfer.isNvidiaDvpAvailable ctx
  if a.1 then (true, a.2)
  else
    let b := VideoFrameTransfer.isAMDPinnedMemoryAvailable ctx
    (b.1, a.2 ++ b.2)

/-! ## Working-set quota -/

/-- What the operating system answers during `initializeMemoryLocking`. -/
structure OsAnswers where
  hProcess : Nat
  workingSet : Option (Nat × Nat)
  setOk : Bool
  deriving DecidableEq, Repr

/-- The minimum `initializeMemoryLocking` asks for: `memSize * 80 + dwMin`. -/
def requestedMin (p : Platform) (memSize dwMin : Nat) : Nat :=
  p.add (memSize * 80 % UINT32) dwMin

/-- The maximum `initializeMemoryLocking` asks for: `memSize * 80 + (dwMax-dwMin)`. -/
def requestedMax (p : Platform) (memSize dwMin dwMax : Nat) : Nat :=
  p.add (memSize * 80 % UINT32) (p.sub dwMax dwMin)

/-- The function `VideoFrameTransfer::initializeMemoryLocking`. -/
def VideoFrameTransfer.initializeMemoryLocking (p : Platform) (g : Statics) (memSize : Nat)
    (os : OsAnswers) : Run Bool :=
  let t0 := [Call.GetCurrentProcessId, Call.OpenProcess os.hProcess]
  if os.hProcess = 0 then
    ⟨.ret false, g, t0⟩
  else if g.dwMin = 0 then
    match os.workingSet with
    | none => ⟨.ret false, g, t0 ++ [Call.GetProcessWorkingSetSize none]⟩
    | some (curMin, curMax) =>
      let g1 := { g with dwMin := curMin, dwMax := curMax }
      let t1 := t0 ++ [Call.GetProcessWorkingSetSize (some (curMin, curMax))]
      let set := Call.SetProcessWorkingSetSize (requestedMin p memSize g1.dwMin)
        (requestedMax p memSize g1.dwMin g1.dwMax) os.setOk
      if os.setOk then ⟨.ret true, g1, t1 ++ [set, Call.CloseHandle os.hProcess]⟩
      else ⟨.ret false, g1, t1 ++ [set]⟩
  else
    let set := Call.SetProcessWorkingSetSize (requestedMin p memSize g.dwMin)
      (requestedMax p memSize g.dwMin g.dwMax) os.setOk
    if os.setOk then ⟨.ret true, g, t0 ++ [set, Call.CloseHandle os.hProcess]⟩
    else ⟨.ret false, g, t0 ++ [set]⟩

/-! ## Process-wide initialisation -/

/-- What the DVP library answers during `initialize`. -/
structure DvpInitAnswers where
  initGLContext : DVPStatus
  constantsStatus : DVPStatus
  constants : DvpConstants
  captureStatus : DVPStatus
  captureHandle : Nat
  playbackStatus : DVPStatus
  playbackHandle : Nat
  deriving DecidableEq, Repr

/-- The failure branch of the `DVP_CHECK` rule: a debug message, then `ExitProcess(hr)`. -/
def dvpCheckFailed (hr : DVPStatus) : List Call :=
  [Call.OutputDebugStringA, Call.ExitProcess hr]

/-- The backend-A block of `initialize` (lines 100 to 108), run on the statics `g`. -/
def dvpInitialisation (g : Statics) (captureTexture playbackTexture : Nat)
    (d : DvpInitAnswers) : Run Unit :=
  let t1 := [Call.dvpInitGLContext d.initGLContext]
  if d.initGLContext ≠ DVP_STATUS_OK then
    ⟨.exited d.initGLContext, g, t1 ++ dvpCheckFailed d.initGLContext⟩
  else
    let t2 := t1 ++ [Call.dvpGetRequiredConstantsGLCtx d.constantsStatus]
    let g2 := { g with
      mBufferAddrAlignment := d.constants.bufferAddrAlignment
      mBufferGpuStrideAlignment := d.constants.bufferGpuStrideAlignment
      mSemaphoreAddrAlignment := d.constants.semaphoreAddrAlignment
      mSemaphoreAllocSize := d.constants.semaphoreAllocSize
      mSemaphorePayloadOffset := d.constants.semaphorePayloadOffset
      mSemaphorePayloadSize := d.constants.semaphorePayloadSize }
    if d.constantsStatus ≠ DVP_STATUS_OK then
      ⟨.exited d.constantsStatus, g2, t2 ++ dvpCheckFailed d.constantsStatus⟩
    else
      let t3 := t2 ++ [Call.dvpCreateGPUTextureGL captureTexture d.captureStatus d.captureHandle]
      let g3 := { g2 with mDvpCaptureTextureHandle := d.captureHandle }
      if d.captureStatus ≠ DVP_STATUS_OK then
        ⟨.exited d.captureStatus, g3, t3 ++ dvpCheckFailed d.captureStatus⟩
      else
        let t4 := t3 ++
          [Call.dvpCreateGPUTextureGL playbackTexture d.playbackStatus d.playbackHandle]
        let g4 := { g3 with mDvpPlaybackTextureHandle := d.playbackHandle }
        if d.playbackStatus ≠ DVP_STATUS_OK then
          ⟨.exited d.playbackStatus, g4, t4 ++ dvpCheckFailed d.playbackStatus⟩
        else
          ⟨.ret (), g4, t4⟩

/-- The function `VideoFrameTransfer::initialize`. -/
def VideoFrameTransfer.initialize (p : Platform) (g : Statics)
    (width height captureTexture playbackTexture : Nat)
    (ctx : GLContext) (os : OsAnswers) (d : DvpInitAnswers) : Run Bool :=
  if g.mInitialized then
    ⟨.ret false, g, []⟩
  else
    let hasDvp := VideoFrameTransfer.isNvidiaDvpAvailable ctx
    let hasAMDPinned := VideoFrameTransfer.isAMDPinnedMemoryAvailable ctx
    let t0 := hasDvp.2 ++ hasAMDPinned.2
    if !hasDvp.1 && !hasAMDPinned.1 then
      ⟨.ret false, g, t0⟩
    else
      let g1 := { g with
        mUseDvp := hasDvp.1
        mWidth := width
        mHeight := height
        mCaptureTexture := captureTexture }
      let lock := VideoFrameTransfer.initializeMemoryLocking p g1
        (g1.mWidth * g1.mHeight * 4 % UINT32) os
      let t1 := t0 ++ lock.trace
      if lock.out ≠ .ret true then
        ⟨.ret false, lock.statics, t1⟩
      else if lock.statics.mUseDvp then
        let dvp := dvpInitialisation lock.statics captureTexture playbackTexture d
        match dvp.out with
        | .ret _ => ⟨.ret true, { dvp.statics with mInitialized := true }, t1 ++ dvp.trace⟩
        | .thrown m => ⟨.thrown m, dvp.statics, t1 ++ dvp.trace⟩
        | .exited c => ⟨.exited c, dvp.statics, t1 ++ dvp.trace⟩
        | .nullDeref => ⟨.nullDeref, dvp.statics, t1 ++ dvp.trace⟩
      else
        ⟨.ret true, { lock.statics with mInitialized := true }, t1⟩

/-! ## Synchronisation objects -/

/-- The record `SyncInfo`: `mSem` is the address of the semaphore word, which the constructor
sets to zero and which afterwards belongs to the DVP library. -/
structure SyncInfo where
  mSem : Nat
  mReleaseValue : Nat
  mAcquireValue : Nat
  mDvpSync : Nat
  deriving DecidableEq, Repr

/-- The statement `mReleaseValue++` on the `uint32_t` counter of a sync object. -/
def SyncInfo.incRelease (i : SyncInfo) : SyncInfo :=
  { i with mReleaseValue := (i.mReleaseValue + 1) % UINT32 }

/-- What the allocator and the DVP library answer while one `SyncInfo` is constructed. -/
structure SyncAnswers where
  pointer : Nat
  importStatus : DVPStatus
  handle : Nat
  deriving DecidableEq, Repr

/-- The constructor `SyncInfo::SyncInfo`. Writing `mSem[0]` through a null pointer ends the
run as `nullDeref`. -/
def SyncInfo.new (semaphoreAllocSize semaphoreAddrAlignment : Nat) (a : SyncAnswers) :
    Outcome SyncInfo × List Call :=
  let t0 := [Call.aligned_malloc semaphoreAllocSize semaphoreAddrAlignment a.pointer]
  if a.pointer = 0 then
    (.nullDeref, t0)
  else
    let t1 := t0 ++ [Call.dvpImportSyncObject a.pointer a.importStatus a.handle]
    if a.importStatus ≠ DVP_STATUS_OK then
      (.exited a.importStatus, t1 ++ dvpCheckFailed a.importStatus)
    else
      (.ret { mSem := a.pointer, mReleaseValue := 0, mAcquireValue := 0, mDvpSync := a.handle },
        t1)

/-- The destructor `SyncInfo::~SyncInfo`. -/
def SyncInfo.delete (s : SyncInfo) (freeStatus : DVPStatus) : Outcome Unit × List Call :=
  let t0 := [Call.dvpFreeSyncObject s.mDvpSync freeStatus]
  if freeStatus ≠ DVP_STATUS_OK then
    (.exited freeStatus, t0 ++ dvpCheckFailed freeStatus)
  else
    (.ret (), t0 ++ [Call.aligned_free s.mSem])

/-- The operator `delete` on a pointer to `SyncInfo`: nothing happens for the null pointer. -/
def deleteSync (s : Option SyncInfo) (freeStatus : DVPStatus) : Outcome Unit × List Call :=
  match s with
  | none => (.ret (), [])
  | some i => i.delete freeStatus

/-! ## Sessions -/

/-- The non-static members of a `VideoFrameTransfer` object, as the initialiser list of the
constructor names them (their declarations are in `VideoFrameTransfer.h`); a null `SyncInfo`
pointer is `none`. -/
structure Session where
  mBuffer : Nat
  mMemSize : Nat
  mDirection : Direction
  mExtSync : Option SyncInfo
  mGpuSync : Option SyncInfo
  mDvpSysMemHandle : Nat
  mBufferHandle : Nat
  deriving DecidableEq, Repr

/-- What the environment answers while a session is constructed. -/
structure CtorAnswers where
  virtualLock : Bool
  extSync : SyncAnswers
  gpuSync : SyncAnswers
  createStatus : DVPStatus
  createHandle : Nat
  bindStatus : DVPStatus
  genHandle : Nat
  glError : Nat
  deriving DecidableEq, Repr

/-- The descriptor filled in lines 193 to 207 of the constructor. -/
def sysMemBuffersDesc (g : Statics) (memSize address : Nat) (direction : Direction) :
    DVPSysmemBufferDesc :=
  let d : DVPSysmemBufferDesc :=
    { width := g.mWidth, height := g.mHeight, stride := g.mWidth * 4 % UINT32,
      size := memSize, bufAddr := address }
  if direction = .CPUtoGPU then
    { d with width := d.width / 2, stride := d.stride / 2 }
  else d

/-- The members as the constructor's initialiser list sets them. -/
def Session.fresh (memSize address : Nat) (direction : Direction) : Session :=
  { mBuffer := address, mMemSize := memSize, mDirection := direction, mExtSync := none,
    mGpuSync := none, mDvpSysMemHandle := 0, mBufferHandle := 0 }

/-- The backend-A branch of the constructor (lines 184 to 210). -/
def constructDvp (g : Statics) (memSize address : Nat) (direction : Direction)
    (a : CtorAnswers) : Outcome Session × List Call :=
  let s0 := Session.fresh memSize address direction
  let t0 := [Call.VirtualLock s0.mBuffer s0.mMemSize a.virtualLock]
  if !a.virtualLock then
    (.thrown "Error pinning memory with VirtualLock", t0)
  else
    match SyncInfo.new g.mSemaphoreAllocSize g.mSemaphoreAddrAlignment a.extSync with
    | (.thrown m, te) => (.thrown m, t0 ++ te)
    | (.exited c, te) => (.exited c, t0 ++ te)
    | (.nullDeref, te) => (.nullDeref, t0 ++ te)
    | (.ret ext, te) =>
      match SyncInfo.new g.mSemaphoreAllocSize g.mSemaphoreAddrAlignment a.gpuSync with
      | (.thrown m, tg) => (.thrown m, t0 ++ te ++ tg)
      | (.exited c, tg) => (.exited c, t0 ++ te ++ tg)
      | (.nullDeref, tg) => (.nullDeref, t0 ++ te ++ tg)
      | (.ret gpu, tg) =>
        let desc := sysMemBuffersDesc g s0.mMemSize s0.mBuffer s0.mDirection
        let t1 := t0 ++ te ++ tg ++ [Call.dvpCreateBuffer desc a.createStatus a.createHandle]
        if a.createStatus ≠ DVP_STATUS_OK then
          (.exited a.createStatus, t1 ++ dvpCheckFailed a.createStatus)
        else
          let t2 := t1 ++ [Call.dvpBindToGLCtx a.createHandle a.bindStatus]
          if a.bindStatus ≠ DVP_STATUS_OK then
            (.exited a.bindStatus, t2 ++ dvpCheckFailed a.bindStatus)
          else
            (.ret { s0 with mExtSync := some ext, mGpuSync := some gpu,
                            mDvpSysMemHandle := a.createHandle }, t2)

/-- The backend-B branch of the constructor (lines 214 to 231). -/
def constructPinned (memSize address : Nat) (direction : Direction)
    (a : CtorAnswers) : Outcome Session × List Call :=
  let s0 := Session.fresh memSize address direction
  let t0 := [Call.glGenBuffers a.genHandle,
    Call.glBindBuffer .GL_EXTERNAL_VIRTUAL_MEMORY_BUFFER_AMD a.genHandle,
    Call.glBufferData .GL_EXTERNAL_VIRTUAL_MEMORY_BUFFER_AMD s0.mMemSize address,
    Call.glGetError a.glError]
  if a.glError ≠ GL_NO_ERROR then
    (.thrown "Error pinning memory with glBufferData(GL_EXTERNAL_VIRTUAL_MEMORY_BUFFER_AMD, ...)",
      t0)
  else
    (.ret { s0 with mBufferHandle := a.genHandle },
      t0 ++ [Call.glBindBuffer .GL_EXTERNAL_VIRTUAL_MEMORY_BUFFER_AMD 0])

/-- The constructor `VideoFrameTransfer::VideoFrameTransfer`. It reads the statics and
does not write them. -/
def VideoFrameTransfer.new (g : Statics) (memSize address : Nat) (direction : Direction)
    (a : CtorAnswers) : Outcome Session × List Call :=
  if g.mUseDvp then constructDvp g memSize address direction a
  else constructPinned memSize address direction a

/-- What the DVP library answers while a session is destroyed. -/
structure DtorAnswers where
  unbindStatus : DVPStatus
  destroyStatus : DVPStatus
  freeExtStatus : DVPStatus
  freeGpuStatus : DVPStatus
  deriving DecidableEq, Repr

/-- The destructor `VideoFrameTransfer::~VideoFrameTransfer`. -/
def VideoFrameTransfer.delete (g : Statics) (s : Session) (a : DtorAnswers) :
    Outcome Unit × List Call :=
  if g.mUseDvp then
    let t1 := [Call.dvpUnbindFromGLCtx s.mDvpSysMemHandle a.unbindStatus]
    if a.unbindStatus ≠ DVP_STATUS_OK then
      (.exited a.unbindStatus, t1 ++ dvpCheckFailed a.unbindStatus)
    else
      let t2 := t1 ++ [Call.dvpDestroyBuffer s.mDvpSysMemHandle a.destroyStatus]
      if a.destroyStatus ≠ DVP_STATUS_OK then
        (.exited a.destroyStatus, t2 ++ dvpCheckFailed a.destroyStatus)
      else
        match deleteSync s.mExtSync a.freeExtStatus with
        | (.thrown m, te) => (.thrown m, t2 ++ te)
        | (.exited c, te) => (.exited c, t2 ++ te)
        | (.nullDeref, te) => (.nullDeref, t2 ++ te)
        | (.ret _, te) =>
          match deleteSync s.mGpuSync a.freeGpuStatus with
          | (.thrown m, tg) => (.thrown m, t2 ++ te ++ tg)
          | (.exited c, tg) => (.exited c, t2 ++ te ++ tg)
          | (.nullDeref, tg) => (.nullDeref, t2 ++ te ++ tg)
          | (.ret _, tg) =>
            (.ret (), t2 ++ te ++ tg ++ [Call.VirtualUnlock s.mBuffer s.mMemSize])
  else
    (.ret (), [Call.glDeleteBuffers s.mBufferHandle])

/-! ## Per-frame operations -/

/-- What the environment answers during one `performFrameTransfer`: the status of
`dvpMemcpyLined` (backend A), the answer of `glClientWaitSync` and the value of `glGetError`
(backend B). -/
structure TransferAnswers where
  copyStatus : DVPStatus
  waitAnswer : Nat
  glError : Nat
  deriving DecidableEq, Repr

/-- The timeout handed to `glClientWaitSync`: `40 * 1000 * 1000` nanoseconds. -/
def fenceTimeoutNs : Nat := 40 * 1000 * 1000

/-- The backend-A branch of `performFrameTransfer` (lines 258 to 282). -/
def transferDvp (g : Statics) (s : Session) (a : TransferAnswers) :
    Outcome Bool × Session × List Call :=
  match s.mGpuSync with
  | none => (.nullDeref, s, [])
  | some gpu0 =>
    let gpu := gpu0.incRelease
    let s1 := { s with mGpuSync := some gpu }
    if s.mDirection = .CPUtoGPU then
      let t0 := [Call.dvpBegin, Call.dvpMapBufferWaitDVP g.mDvpCaptureTextureHandle]
      match s.mExtSync with
      | none => (.nullDeref, s1, t0)
      | some ext =>
        (.ret (a.copyStatus == DVP_STATUS_OK), s1, t0 ++
          [Call.dvpMemcpyLined s.mDvpSysMemHandle ext.mDvpSync ext.mAcquireValue
             DVP_TIMEOUT_IGNORED g.mDvpCaptureTextureHandle gpu.mDvpSync gpu.mReleaseValue
             0 g.mHeight a.copyStatus,
           Call.dvpMapBufferEndDVP g.mDvpCaptureTextureHandle, Call.dvpEnd])
    else
      let t0 := [Call.dvpBegin, Call.dvpMapBufferWaitDVP g.mDvpPlaybackTextureHandle]
      match s.mExtSync with
      | none => (.nullDeref, s1, t0)
      | some ext =>
        (.ret (a.copyStatus == DVP_STATUS_OK), s1, t0 ++
          [Call.dvpMemcpyLined g.mDvpPlaybackTextureHandle ext.mDvpSync ext.mReleaseValue
             DVP_TIMEOUT_IGNORED s.mDvpSysMemHandle gpu.mDvpSync gpu.mReleaseValue
             0 g.mHeight a.copyStatus,
           Call.dvpMapBufferEndDVP g.mDvpPlaybackTextureHandle, Call.dvpEnd])

/-- The backend-B branch of `performFrameTransfer` (lines 286 to 319). -/
def transferPinned (g : Statics) (s : Session) (a : TransferAnswers) :
    Outcome Bool × Session × List Call :=
  if s.mDirection = .CPUtoGPU then
    (.ret (a.glError == GL_NO_ERROR), s,
      [Call.glEnableTexture2D,
       Call.glBindBuffer .GL_PIXEL_UNPACK_BUFFER s.mBufferHandle,
       Call.glBindTexture g.mCaptureTexture,
       Call.glTexSubImage2D (g.mWidth / 2) g.mHeight,
       Call.glFenceSync,
       Call.glClientWaitSync fenceTimeoutNs a.waitAnswer,
       Call.glDeleteSync,
       Call.glBindTexture 0,
       Call.glBindBuffer .GL_PIXEL_UNPACK_BUFFER 0,
       Call.glDisableTexture2D,
       Call.glGetError a.glError])
  else
    (.ret (a.glError == GL_NO_ERROR), s,
      [Call.glBindBuffer .GL_PIXEL_PACK_BUFFER s.mBufferHandle,
       Call.glReadPixels g.mWidth g.mHeight,
       Call.glFenceSync,
       Call.glClientWaitSync fenceTimeoutNs a.waitAnswer,
       Call.glDeleteSync,
       Call.glGetError a.glError])

/-- The method `VideoFrameTransfer::performFrameTransfer`. -/
def VideoFrameTransfer.performFrameTransfer (g : Statics) (s : Session) (a : TransferAnswers) :
    Outcome Bool × Session × List Call :=
  if g.mUseDvp then transferDvp g s a else transferPinned g s a

/-- The method `VideoFrameTransfer::waitForTransferComplete`. -/
def VideoFrameTransfer.waitForTransferComplete (g : Statics) (s : Session) :
    Outcome Unit × Session × List Call :=
  if !g.mUseDvp then
    (.ret (), s, [])
  else if s.mDirection = .GPUtoCPU then
    match s.mGpuSync with
    | none => (.nullDeref, s, [Call.dvpBegin])
    | some gpu =>
      (.ret (), s,
        [Call.dvpBegin, Call.dvpSyncObjClientWaitComplete gpu.mDvpSync DVP_TIMEOUT_IGNORED,
         Call.dvpEnd])
  else
    (.ret (), s, [])

/-- The method `VideoFrameTransfer::beginTextureInUse`. -/
def VideoFrameTransfer.beginTextureInUse (g : Statics) (s : Session) (direction : Direction) :
    Outcome Unit × Session × List Call :=
  if !g.mUseDvp then
    (.ret (), s, [])
  else if direction = .CPUtoGPU then
    (.ret (), s, [Call.dvpMapBufferWaitAPI g.mDvpCaptureTextureHandle])
  else
    (.ret (), s, [Call.dvpMapBufferWaitAPI g.mDvpPlaybackTextureHandle])

/-- The method `VideoFrameTransfer::endTextureInUse`. -/
def VideoFrameTransfer.endTextureInUse (g : Statics) (s : Session) (direction : Direction) :
    Outcome Unit × Session × List Call :=
  if !g.mUseDvp then
    (.ret (), s, [])
  else if direction = .CPUtoGPU then
    (.ret (), s, [Call.dvpMapBufferEndAPI g.mDvpCaptureTextureHandle])
  else
    (.ret (), s, [Call.dvpMapBufferEndAPI g.mDvpPlaybackTextureHandle])

/-- The whole sequence of `performFrameTransfer` calls on one session, one call per answer,
with nothing in between; it stops at the first call that does not return. The results of
the calls are collected in order. -/
def performFrameTransfers (g : Statics) :
    Session → List TransferAnswers → Outcome (List Bool) × Session × List Call
  | s, [] => (.ret [], s, [])
  | s, a :: rest =>
    match VideoFrameTransfer.performFrameTransfer g s a with
    | (.ret b, s1, t) =>
      match performFrameTransfers g s1 rest with
      | (.ret bs, s2, t2) => (.ret (b :: bs), s2, t ++ t2)
      | (.thrown m, s2, t2) => (.thrown m, s2, t ++ t2)
      | (.exited c, s2, t2) => (.exited c, s2, t ++ t2)
      | (.nullDeref, s2, t2) => (.nullDeref, s2, t ++ t2)
    | (.thrown m, s1, t) => (.thrown m, s1, t)
    | (.exited c, s1, t) => (.exited c, s1, t)
    | (.nullDeref, s1, t) => (.nullDeref, s1, t)

/-- Whether a call came back to its caller with a value. -/
def Outcome.returned {α : Type} : Outcome α → Bool
  | .ret _ => true
  | .thrown _ => false
  | .exited _ => false
  | .nullDeref => false

/-- One of the four per-frame methods, called on a session, with the answers the
environment gives during it. -/
inductive FrameCall
  | performFrameTransfer (a : TransferAnswers)
  | waitForTransferComplete
  | beginTextureInUse (direction : Direction)
  | endTextureInUse (direction : Direction)
  deriving DecidableEq, Repr

/-- One per-frame call on the session `s`: whether it returned, the session it leaves and
the calls it issued. -/
def frameCall (g : Statics) (s : Session) : FrameCall → Bool × Session × List Call
  | .performFrameTransfer a =>
    let r := VideoFrameTransfer.performFrameTransfer g s a
    (r.1.returned, r.2.1, r.2.2)
  | .waitForTransferComplete =>
    let r := VideoFrameTransfer.waitForTransferComplete g s
    (r.1.returned, r.2.1, r.2.2)
  | .beginTextureInUse direction =>
    let r := VideoFrameTransfer.beginTextureInUse g s direction
    (r.1.returned, r.2.1, r.2.2)
  | .endTextureInUse direction =>
    let r := VideoFrameTransfer.endTextureInUse g s direction
    (r.1.returned, r.2.1, r.2.2)

/-- A sequence of per-frame calls on one session, in order, up to the first call that does
not return: whether all returned, the session left and all calls issued. -/
def frameCalls (g : Statics) : Session → List FrameCall → Bool × Session × List Call
  | s, [] => (true, s, [])
  | s, c :: rest =>
    let r := frameCall g s c
    if r.1 then
      let r2 := frameCalls g r.2.1 rest
      (r2.1, r2.2.1, r.2.2 ++ r2.2.2)
    else r

/-! ## Resources of a session -/

/-- The resources a session can hold: a page lock on its buffer, the aligned memory and the
imported handle of a sync object, the DVP registration of the buffer and its binding to the
GL context (backend A), a GL buffer object (backend B). -/
inductive Resource
  | pageLock (address size : Nat)
  | semaphoreMemory (pointer : Nat)
  | syncObject (handle : Nat)
  | dvpBuffer (handle : Nat)
  | dvpBinding (handle : Nat)
  | glBuffer (handle : Nat)
  deriving DecidableEq, Repr

/-- The resource a call hands out, if it succeeded. -/
def Call.acquires : Call → List Resource
  | .VirtualLock address size true => [.pageLock address size]
  | .aligned_malloc _ _ pointer => if pointer = 0 then [] else [.semaphoreMemory pointer]
  | .dvpImportSyncObject _ status handle =>
    if status = DVP_STATUS_OK then [.syncObject handle] else []
  | .dvpCreateBuffer _ status handle =>
    if status = DVP_STATUS_OK then [.dvpBuffer handle] else []
  | .dvpBindToGLCtx handle status =>
    if status = DVP_STATUS_OK then [.dvpBinding handle] else []
  | .glGenBuffers handle => [.glBuffer handle]
  | _ => []

/-- The resource a call gives back (or tries to). -/
def Call.releases : Call → List Resource
  | .VirtualUnlock address size => [.pageLock address size]
  | .aligned_free pointer => [.semaphoreMemory pointer]
  | .dvpFreeSyncObject handle _ => [.syncObject handle]
  | .dvpDestroyBuffer handle _ => [.dvpBuffer handle]
  | .dvpUnbindFromGLCtx handle _ => [.dvpBinding handle]
  | .glDeleteBuffers handle => [.glBuffer handle]
  | _ => []

/-- All resources handed out along a trace, in order. -/
def acquired : List Call → List Resource
  | [] => []
  | c :: t => c.acquires ++ acquired t

/-- All resources given back along a trace, in order. -/
def released : List Call → List Resource
  | [] => []
  | c :: t => c.releases ++ released t

/-- The buffer bound to the pinned-memory target after a trace that starts with `bound`
there (`0`: none). Deleting the bound buffer unbinds it. -/
def pinnedTargetBinding (bound : Nat) : List Call → Nat
  | [] => bound
  | .glBindBuffer .GL_EXTERNAL_VIRTUAL_MEMORY_BUFFER_AMD handle :: t =>
    pinnedTargetBinding handle t
  | .glDeleteBuffers handle :: t =>
    pinnedTargetBinding (if bound = handle then 0 else bound) t
  | _ :: t => pinnedTargetBinding bound t

/-- The descriptor a trace registers with `dvpCreateBuffer`, if it does. -/
def registeredDescriptor : List Call → Option DVPSysmemBufferDesc
  | [] => none
  | .dvpCreateBuffer desc _ _ :: _ => some desc
  | _ :: t => registeredDescriptor t

/-- The limits a trace asks the operating system to set, if it does. -/
def requestedLimits : List Call → Option (Nat × Nat)
  | [] => none
  | .SetProcessWorkingSetSize newMin newMax _ :: _ => some (newMin, newMax)
  | _ :: t => requestedLimits t

/-! ## Sequences of public calls -/

/-- A live session together with what its constructor acquired and the values
`mInitialized` and `mUseDvp` had when it was constructed. -/
structure Entry where
  session : Session
  acquired : List Resource
  bornInitialized : Bool
  bornUseDvp : Bool
  deriving DecidableEq, Repr

/-- The process: the statics and the live sessions. -/
structure World where
  statics : Statics
  sessions : List Entry
  deriving DecidableEq, Repr

/-- The process at its start. -/
def World.start : World := { statics := Statics.initial, sessions := [] }

/-- A record of one destructor run: what the session's constructor had acquired, what the
destructor released, the values `mInitialized` and `mUseDvp` had at construction, the
value `mUseDvp` had at destruction, and whether the destructor returned. -/
structure Destroyed where
  acquired : List Resource
  released : List Resource
  bornInitialized : Bool
  bornUseDvp : Bool
  diedUseDvp : Bool
  returned : Bool
  deriving DecidableEq, Repr

/-- One public call, with the answers the environment gives during it. Sessions are
addressed by their position among the live ones. -/
inductive Op
  | init (width height captureTexture playbackTexture : Nat) (ctx : GLContext)
      (os : OsAnswers) (d : DvpInitAnswers)
  | construct (memSize address : Nat) (direction : Direction) (a : CtorAnswers)
  | transfer (i : Nat) (a : TransferAnswers)
  | wait (i : Nat)
  | beginTexture (i : Nat) (direction : Direction)
  | endTexture (i : Nat) (direction : Direction)
  | destroy (i : Nat) (a : DtorAnswers)
  deriving DecidableEq, Repr

/-- What a sequence of public calls leaves: the process, whether it is still running, the
calls issued and the destructor runs seen. -/
structure Progress where
  world : World
  alive : Bool
  trace : List Call
  destroyed : List Destroyed
  deriving DecidableEq, Repr

/-- Whether an outcome lets the process go on: a return and a thrown exception do,
`ExitProcess` and a null dereference do not. -/
def Outcome.goesOn {α : Type} : Outcome α → Bool
  | .ret _ => true
  | .thrown _ => true
  | .exited _ => false
  | .nullDeref => false

/-- One public call on the process. A call on a session that is not live is no call. -/
def step (p : Platform) (w : World) : Op → Progress
  | .init width height captureTexture playbackTexture ctx os d =>
    let r := VideoFrameTransfer.initialize p w.statics width height captureTexture
      playbackTexture ctx os d
    ⟨{ w with statics := r.statics }, r.out.goesOn, r.trace, []⟩
  | .construct memSize address direction a =>
    match VideoFrameTransfer.new w.statics memSize address direction a with
    | (.ret s, t) =>
      ⟨{ w with sessions := w.sessions ++
          [⟨s, acquired t, w.statics.mInitialized, w.statics.mUseDvp⟩] },
        true, t, []⟩
    | (o, t) => ⟨w, o.goesOn, t, []⟩
  | .transfer i a =>
    match w.sessions[i]? with
    | none => ⟨w, true, [], []⟩
    | some e =>
      let r := VideoFrameTransfer.performFrameTransfer w.statics e.session a
      ⟨{ w with sessions := w.sessions.set i { e with session := r.2.1 } },
        r.1.goesOn, r.2.2, []⟩
  | .wait i =>
    match w.sessions[i]? with
    | none => ⟨w, true, [], []⟩
    | some e =>
      let r := VideoFrameTransfer.waitForTransferComplete w.statics e.session
      ⟨{ w with sessions := w.sessions.set i { e with session := r.2.1 } },
        r.1.goesOn, r.2.2, []⟩
  | .beginTexture i direction =>
    match w.sessions[i]? with
    | none => ⟨w, true, [], []⟩
    | some e =>
      let r := VideoFrameTransfer.beginTextureInUse w.statics e.session direction
      ⟨{ w with sessions := w.sessions.set i { e with session := r.2.1 } },
        r.1.goesOn, r.2.2, []⟩
  | .endTexture i direction =>
    match w.sessions[i]? with
    | none => ⟨w, true, [], []⟩
    | some e =>
      let r := VideoFrameTransfer.endTextureInUse w.statics e.session direction
      ⟨{ w with sessions := w.sessions.set i { e with session := r.2.1 } },
        r.1.goesOn, r.2.2, []⟩
  | .destroy i a =>
    match w.sessions[i]? with
    | none => ⟨w, true, [], []⟩
    | some e =>
      let r := VideoFrameTransfer.delete w.statics e.session a
      ⟨{ w with sessions := w.sessions.eraseIdx i }, r.1.goesOn, r.2,
        [⟨e.acquired, released r.2, e.bornInitialized, e.bornUseDvp, w.statics.mUseDvp,
          r.1 == .ret ()⟩]⟩

/-- A sequence of public calls, run from `w` until the process ends. -/
def run (p : Platform) (w : World) : List Op → Progress
  | [] => ⟨w, true, [], []⟩
  | op :: rest =>
    let r := step p w op
    if r.alive then
      let r2 := run p r.world rest
      ⟨r2.world, r2.alive, r.trace ++ r2.trace, r.destroyed ++ r2.destroyed⟩
    else r

/-- What the destructor of `s` gives back when it runs to its end while `mUseDvp` has the
value `useDvp`: the releases of `VideoFrameTransfer.delete` under answers that are all the
success status. -/
def Session.releasedBy (useDvp : Bool) (s : Session) : List Resource :=
  released (VideoFrameTransfer.delete { Statics.initial with mUseDvp := useDvp } s
    ⟨DVP_STATUS_OK, DVP_STATUS_OK, DVP_STATUS_OK, DVP_STATUS_OK⟩).2

/-- The state of affairs kept by every public call: the destructor of a live session, run
under the value `mUseDvp` had at its construction, would give back what its constructor
acquired; and a session constructed after a successful initialisation sees the module
still initialised, with `mUseDvp` as it was. -/
def World.Consistent (w : World) : Prop :=
  ∀ e ∈ w.sessions,
    (e.session.releasedBy e.bornUseDvp).Perm e.acquired ∧
    (e.bornInitialized = true →
      w.statics.mInitialized = true ∧ w.statics.mUseDvp = e.bornUseDvp)

/-- What is asked of one destructor run: for a session constructed after a successful
initialisation `mUseDvp` is what it was at construction; and if `mUseDvp` is what it was at
construction and the destructor returned, then it released what the constructor acquired,
each resource as often as it was acquired. -/
def Destroyed.Balanced (r : Destroyed) : Prop :=
  (r.bornInitialized = true → r.bornUseDvp = r.diedUseDvp) ∧
  (r.returned = true → r.bornUseDvp = r.diedUseDvp → r.released.Perm r.acquired)

/-! ## Sample environments -/

/-- A graphics context of a Quadro board, without the pinned-memory extension. -/
def quadroContext : GLContext :=
  ⟨"Quadro K5000/PCIe/SSE2".toList, "GL_ARB_sync GL_ARB_pixel_buffer_object".toList⟩

/-- A graphics context without the Quadro marker, with the pinned-memory extension. -/
def radeonContext : GLContext :=
  ⟨"AMD FirePro W8000".toList, "GL_ARB_sync GL_AMD_pinned_memory".toList⟩

/-- A graphics context with neither the marker nor the extension. -/
def plainContext : GLContext :=
  ⟨"GeForce GTX 680/PCIe/SSE2".toList, "GL_ARB_sync GL_ARB_pixel_buffer_object".toList⟩

/-- An operating system that opens the process, reports the default working set of
50 and 345 pages, and accepts the new limits. -/
def osAllows : OsAnswers := ⟨5, some (204800, 1413120), true⟩

/-- An operating system that does not open the process. -/
def osRefuses : OsAnswers := ⟨0, none, false⟩

/-- A DVP library that answers every call of `initialize` with success. -/
def dvpAllOk : DvpInitAnswers :=
  { initGLContext := 0, constantsStatus := 0,
    constants := ⟨4096, 64, 4, 16, 0, 4⟩,
    captureStatus := 0, captureHandle := 11, playbackStatus := 0, playbackHandle := 12 }

/-- The statics after a successful `initialize` for 1920 by 1080 on `quadroContext`. -/
def quadroStatics : Statics :=
  { mInitialized := true, mUseDvp := true, mWidth := 1920, mHeight := 1080,
    mCaptureTexture := 1, mDvpCaptureTextureHandle := 11, mDvpPlaybackTextureHandle := 12,
    mBufferAddrAlignment := 4096, mBufferGpuStrideAlignment := 64,
    mSemaphoreAddrAlignment := 4, mSemaphoreAllocSize := 16, mSemaphorePayloadOffset := 0,
    mSemaphorePayloadSize := 4, dwMin := 204800, dwMax := 1413120 }

/-- The statics after a successful `initialize` for 1920 by 1080 on `radeonContext`. -/
def radeonStatics : Statics :=
  { Statics.initial with
    mInitialized := true, mWidth := 1920, mHeight := 1080, mCaptureTexture := 1,
    dwMin := 204800, dwMax := 1413120 }

/-- Answers under which a constructor succeeds on either backend. -/
def ctorAllOk : CtorAnswers :=
  { virtualLock := true, extSync := ⟨4096, 0, 21⟩, gpuSync := ⟨8192, 0, 22⟩,
    createStatus := 0, createHandle := 31, bindStatus := 0, genHandle := 7, glError := 0 }

/-- The calls of the constructor on `quadroStatics` for one frame at address 65536,
CPUtoGPU, under `ctorAllOk`. -/
def quadroCtorTrace : List Call :=
  [.VirtualLock 65536 (1920 * 1080 * 4) true, .aligned_malloc 16 4 4096,
   .dvpImportSyncObject 4096 0 21, .aligned_malloc 16 4 8192, .dvpImportSyncObject 8192 0 22,
   .dvpCreateBuffer ⟨960, 1080, 3840, 1920 * 1080 * 4, 65536⟩ 0 31, .dvpBindToGLCtx 31 0]

/-- The session that constructor returns. -/
def quadroSession : Session :=
  ⟨65536, 1920 * 1080 * 4, .CPUtoGPU, some ⟨4096, 0, 0, 21⟩, some ⟨8192, 0, 0, 22⟩, 31, 0⟩

/-- A backend-A session for the read-back direction, as its constructor leaves it. -/
def readbackSession : Session :=
  ⟨131072, 1920 * 1080 * 4, .GPUtoCPU, some ⟨4096, 0, 0, 21⟩, some ⟨8192, 0, 0, 22⟩, 31, 0⟩

/-- A backend-B session, as its constructor leaves it under `ctorAllOk`. -/
def pinnedSession : Session :=
  ⟨65536, 1920 * 1080 * 4, .GPUtoCPU, none, none, 0, 7⟩

/-- A transfer whose fence is not signalled within the timeout and that raises no GL
error. -/
def fenceTimedOut : TransferAnswers := ⟨0, GL_TIMEOUT_EXPIRED, GL_NO_ERROR⟩

/-- A transfer whose fence is signalled in time and that raises no GL error. -/
def fenceSignalled : TransferAnswers := ⟨0, GL_CONDITION_SATISFIED, GL_NO_ERROR⟩

/-- Answers of a driver that rejects the pinned-memory target: `glGetError` reports
`GL_INVALID_ENUM`. -/
def ctorInvalidEnum : CtorAnswers := { ctorAllOk with glError := 0x0500 }

/-- Answers of a driver that cannot pin the range: `glGetError` reports
`GL_OUT_OF_MEMORY`. -/
def ctorOutOfMemory : CtorAnswers := { ctorAllOk with glError := 0x0505 }

/-- Answers of an operating system that does not lock the pages. -/
def ctorLockFails : CtorAnswers := { ctorAllOk with virtualLock := false }

/-- Answers under which a destructor runs to its end. -/
def dtorAllOk : DtorAnswers := ⟨0, 0, 0, 0⟩

/-- A regular life: initialisation on a Quadro board, a session, a transfer, a second
initialisation attempt on another context, the end of the session. -/
def regularLife : List Op :=
  [.init 1920 1080 1 2 quadroContext osAllows dvpAllOk,
   .construct (1920 * 1080 * 4) 65536 .CPUtoGPU ctorAllOk,
   .transfer 0 ⟨0, 0, 0⟩,
   .init 1280 720 3 4 radeonContext osAllows dvpAllOk,
   .destroy 0 dtorAllOk]

/-- A session constructed before the module is initialised on a Quadro board, and destroyed
afterwards. -/
def earlySession : List Op :=
  [.construct (1920 * 1080 * 4) 65536 .GPUtoCPU ctorAllOk,
   .init 1920 1080 1 2 quadroContext osAllows dvpAllOk,
   .destroy 0 dtorAllOk]

/-- The same life, with a DVP library that answers the unbinding of handle 0 with the
status 1. -/
def earlySessionRejected : List Op :=
  [.construct (1920 * 1080 * 4) 65536 .GPUtoCPU ctorAllOk,
   .init 1920 1080 1 2 quadroContext osAllows dvpAllOk,
   .destroy 0 ⟨1, 0, 0, 0⟩]

/-- The size in bytes of one 1920 by 1080 BGRA frame. -/
def frameBytes : Nat := 1920 * 1080 * 4

/-- Two frames on a backend-A session: the texture bracket, a transfer, a wait, and a
transfer whose copy status is a failure. -/
def twoFrames : List FrameCall :=
  [.beginTextureInUse .CPUtoGPU, .endTextureInUse .CPUtoGPU, .performFrameTransfer ⟨0, 0, 0⟩,
   .waitForTransferComplete, .performFrameTransfer ⟨5, 0, 0⟩]

/-! ## Theorems -/

/-- The helper `startsWith` decides the prefix relation. -/
theorem startsWith_iff_begins (n h : List Char) : startsWith n h = true ↔ n <+: h := by
  induction n generalizing h with
  | nil => simp [startsWith]
  | cons a n ih =>
    cases h with
    | nil => simp [startsWith]
    | cons b h => simp [startsWith, ih, List.cons_prefix_cons]

/-- The function `strstr` finds an occurrence exactly when the needle is a contiguous part
of the haystack. -/
theorem strstr_isSome_iff_occurs (h n : List Char) :
    (strstr h n).isSome = true ↔ n <:+: h := by
  induction h with
  | nil =>
    cases n <;> simp [strstr, startsWith]
  | cons b h ih =>
    unfold strstr
    by_cases hp : startsWith n (b :: h) = true
    · simp only [hp, if_true, Option.isSome_some, true_iff]
      exact ((startsWith_iff_begins _ _).1 hp).isInfix
    · simp only [hp, Bool.false_eq_true, if_false, Option.isSome_map', ih, List.infix_cons_iff]
      rw [← startsWith_iff_begins]
      simp [hp]

/-- The working-set step leaves the backend flag alone. -/
theorem initializeMemoryLocking_mUseDvp (p : Platform) (g : Statics) (m : Nat) (os : OsAnswers) :
    (VideoFrameTransfer.initializeMemoryLocking p g m os).statics.mUseDvp = g.mUseDvp := by
  unfold VideoFrameTransfer.initializeMemoryLocking
  rcases hws : os.workingSet with _ | ⟨a, b⟩ <;> simp only <;> split_ifs <;> rfl

/-- The DVP block of the initialisation leaves the backend flag alone. -/
theorem dvpInitialisation_mUseDvp (g : Statics) (c q : Nat) (d : DvpInitAnswers) :
    (dvpInitialisation g c q d).statics.mUseDvp = g.mUseDvp := by
  unfold dvpInitialisation
  simp only
  split_ifs <;> rfl

/-- C1: a call of `initialize` made while `mInitialized` is true returns false, leaves every
static (the flags, the frame size, the textures and their handles, the vendor constants and
the cached working-set pair) as it was, and issues no call to the graphics driver, the DVP
library or the operating system, whatever the arguments and the environment's answers. -/
theorem C1_initialize_twice_is_refused (p : Platform) (g : Statics)
    (width height captureTexture playbackTexture : Nat) (ctx : GLContext) (os : OsAnswers)
    (d : DvpInitAnswers) (hinit : g.mInitialized = true) :
    VideoFrameTransfer.initialize p g width height captureTexture playbackTexture ctx os d
      = ⟨.ret false, g, []⟩ := by
  unfold VideoFrameTransfer.initialize
  simp [hinit]

/-- C1 at a concrete input: a second call on the statics a first call on a Quadro board
left, now for another size and on another context. -/
theorem C1_initialize_twice_is_refused_witness :
    quadroStatics.mInitialized = true ∧
    VideoFrameTransfer.initialize .x64 quadroStatics 1280 720 3 4 radeonContext osAllows dvpAllOk
      = ⟨.ret false, quadroStatics, []⟩ :=
  ⟨rfl, C1_initialize_twice_is_refused .x64 quadroStatics 1280 720 3 4 radeonContext osAllows
    dvpAllOk rfl⟩

/-- C10: `checkFastMemoryTransferAvailable` answers true exactly when the renderer string
contains `Quadro` or the extension string contains `GL_AMD_pinned_memory`; when neither
holds `initialize` returns false and leaves the statics as they were; and whenever
`initialize` returns true, `mUseDvp` is true exactly when the renderer string contains
`Quadro`, also when the extension is there too. -/
theorem C10_backend_selection (p : Platform) (g : Statics)
    (width height captureTexture playbackTexture : Nat) (ctx : GLContext) (os : OsAnswers)
    (d : DvpInitAnswers) :
    ((VideoFrameTransfer.checkFastMemoryTransferAvailable ctx).1 = true ↔
      (quadroMarker <:+: ctx.renderer ∨ amdPinnedMarker <:+: ctx.extensions)) ∧
    ((¬ quadroMarker <:+: ctx.renderer ∧ ¬ amdPinnedMarker <:+: ctx.extensions) →
      ( VideoFrameTransfer.initialize p g width height captureTexture playbackTexture
          ctx os d).out = .ret false ∧
      ( VideoFrameTransfer.initialize p g width height captureTexture playbackTexture
          ctx os d).statics = g) ∧
    (( VideoFrameTransfer.initialize p g width height captureTexture playbackTexture
          ctx os d).out = .ret true →
      (( VideoFrameTransfer.initialize p g width height captureTexture playbackTexture
          ctx os d).statics.mUseDvp = true ↔ quadroMarker <:+: ctx.renderer)) := by
  have hA := strstr_isSome_iff_occurs ctx.renderer quadroMarker
  have hB := strstr_isSome_iff_occurs ctx.extensions amdPinnedMarker
  refine ⟨?_, ?_, ?_⟩
  · unfold VideoFrameTransfer.checkFastMemoryTransferAvailable
      VideoFrameTransfer.isNvidiaDvpAvailable VideoFrameTransfer.isAMDPinnedMemoryAvailable
    rw [← hA, ← hB]
    by_cases h1 : (strstr ctx.renderer quadroMarker).isSome = true <;> simp [h1]
  · rintro ⟨h1, h2⟩
    rw [← hA] at h1
    rw [← hB] at h2
    unfold VideoFrameTransfer.initialize VideoFrameTransfer.isNvidiaDvpAvailable
      VideoFrameTransfer.isAMDPinnedMemoryAvailable
    by_cases hi : g.mInitialized = true <;> simp [hi, h1, h2]
  · rw [← hA]
    unfold VideoFrameTransfer.initialize VideoFrameTransfer.isNvidiaDvpAvailable
      VideoFrameTransfer.isAMDPinnedMemoryAvailable
    by_cases hi : g.mInitialized = true
    · simp [hi]
    · simp only [hi, Bool.false_eq_true, if_false]
      split_ifs with h1 h2 h3
      · simp
      · simp
      · have h4 := dvpInitialisation_mUseDvp
          (VideoFrameTransfer.initializeMemoryLocking p
            { g with mUseDvp := (strstr ctx.renderer quadroMarker).isSome, mWidth := width,
                     mHeight := height, mCaptureTexture := captureTexture }
            (width * height * 4 % UINT32) os).statics captureTexture playbackTexture d
        rw [initializeMemoryLocking_mUseDvp] at h4
        split <;> simp_all
      · intro _
        simp only [initializeMemoryLocking_mUseDvp]

/-- C10 at concrete inputs: on a context with both the marker and the extension
backend A is chosen, on `radeonContext` backend B, on `plainContext` nothing changes. -/
theorem C10_backend_selection_witness :
    ( VideoFrameTransfer.initialize .x64 Statics.initial 1920 1080 1 2
        ⟨quadroContext.renderer, radeonContext.extensions⟩ osAllows dvpAllOk)
      = ⟨.ret true, quadroStatics,
          [.glGetString .GL_RENDERER, .glGetString .GL_EXTENSIONS, .GetCurrentProcessId,
           .OpenProcess 5, .GetProcessWorkingSetSize (some (204800, 1413120)),
           .SetProcessWorkingSetSize 663756800 664760320 true, .CloseHandle 5,
           .dvpInitGLContext 0, .dvpGetRequiredConstantsGLCtx 0,
           .dvpCreateGPUTextureGL 1 0 11, .dvpCreateGPUTextureGL 2 0 12]⟩ ∧
    ( VideoFrameTransfer.initialize .x64 Statics.initial 1920 1080 1 2
        radeonContext osAllows dvpAllOk).statics = radeonStatics ∧
    ( VideoFrameTransfer.initialize .x64 Statics.initial 1920 1080 1 2
        plainContext osAllows dvpAllOk).statics = Statics.initial ∧
    ((VideoFrameTransfer.checkFastMemoryTransferAvailable plainContext).1 = true ↔
      (quadroMarker <:+: plainContext.renderer ∨
        amdPinnedMarker <:+: plainContext.extensions)) :=
  ⟨by decide, by decide, by decide,
    (C10_backend_selection .x64 Statics.initial 1920 1080 1 2 plainContext osAllows dvpAllOk).1⟩

/-- C4, refuted as stated: on a context where backend B is the one selected, `initialize`
returns false when the operating system does not open the process and true when it does,
and in the second run it asks for new working-set limits. -/
theorem C4_working_set_step_not_skipped :
    ¬ quadroMarker <:+: radeonContext.renderer ∧
    amdPinnedMarker <:+: radeonContext.extensions ∧
    ( VideoFrameTransfer.initialize .x64 Statics.initial 1920 1080 1 2
        radeonContext osRefuses dvpAllOk).out = .ret false ∧
    ( VideoFrameTransfer.initialize .x64 Statics.initial 1920 1080 1 2
        radeonContext osAllows dvpAllOk).out = .ret true ∧
    requestedLimits ( VideoFrameTransfer.initialize .x64 Statics.initial 1920 1080 1 2
        radeonContext osAllows dvpAllOk).trace = some (663756800, 664760320) := by
  refine ⟨?_, ?_, by decide, by decide, by decide⟩
  · rw [← strstr_isSome_iff_occurs]
    decide
  · rw [← strstr_isSome_iff_occurs]
    decide

/-- C4, amended: when backend B is the one selected (no `Quadro` in the renderer string,
`GL_AMD_pinned_memory` in the extension string) and the module is not yet initialised,
`initialize` runs `initializeMemoryLocking(mWidth * mHeight * 4)` right after the two string
queries and issues no other call; it returns what that step returns, and sets
`mInitialized` exactly when that step returned true. -/
theorem C4_backend_B_runs_working_set_step (p : Platform) (g : Statics)
    (width height captureTexture playbackTexture : Nat) (ctx : GLContext) (os : OsAnswers)
    (d : DvpInitAnswers) (hinit : g.mInitialized = false)
    (hA : ¬ quadroMarker <:+: ctx.renderer) (hB : amdPinnedMarker <:+: ctx.extensions) :
    ( VideoFrameTransfer.initialize p g width height captureTexture playbackTexture
        ctx os d).trace
      = [Call.glGetString .GL_RENDERER, Call.glGetString .GL_EXTENSIONS] ++
        (VideoFrameTransfer.initializeMemoryLocking p
          { g with mUseDvp := false, mWidth := width, mHeight := height,
                   mCaptureTexture := captureTexture }
          (width * height * 4 % UINT32) os).trace ∧
    ( VideoFrameTransfer.initialize p g width height captureTexture playbackTexture
        ctx os d).out
      = (VideoFrameTransfer.initializeMemoryLocking p
          { g with mUseDvp := false, mWidth := width, mHeight := height,
                   mCaptureTexture := captureTexture }
          (width * height * 4 % UINT32) os).out ∧
    ( VideoFrameTransfer.initialize p g width height captureTexture playbackTexture
        ctx os d).statics
      = { (VideoFrameTransfer.initializeMemoryLocking p
            { g with mUseDvp := false, mWidth := width, mHeight := height,
                     mCaptureTexture := captureTexture }
            (width * height * 4 % UINT32) os).statics with
          mInitialized := decide ((VideoFrameTransfer.initializeMemoryLocking p
            { g with mUseDvp := false, mWidth := width, mHeight := height,
                     mCaptureTexture := captureTexture }
            (width * height * 4 % UINT32) os).out = .ret true) } := by
  rw [← strstr_isSome_iff_occurs] at hA hB
  have hA2 : (strstr ctx.renderer quadroMarker).isSome = false := by simpa using hA
  unfold VideoFrameTransfer.initialize VideoFrameTransfer.isNvidiaDvpAvailable
    VideoFrameTransfer.isAMDPinnedMemoryAvailable
  simp only [hinit, hA2, hB, Bool.false_eq_true, if_false, Bool.not_false, Bool.not_true,
    Bool.and_false, initializeMemoryLocking_mUseDvp]
  unfold VideoFrameTransfer.initializeMemoryLocking
  simp only [hinit]
  rcases hws : os.workingSet with _ | ⟨a, b⟩ <;> simp only <;> split_ifs <;> simp_all

/-- C4 at a concrete input: `radeonContext`, first initialisation, for 1920 by 1080. -/
theorem C4_backend_B_runs_working_set_step_witness :
    Statics.initial.mInitialized = false ∧
    ¬ quadroMarker <:+: radeonContext.renderer ∧
    amdPinnedMarker <:+: radeonContext.extensions ∧
    ( VideoFrameTransfer.initialize .x64 Statics.initial 1920 1080 1 2
        radeonContext osAllows dvpAllOk).out
      = (VideoFrameTransfer.initializeMemoryLocking .x64
          { Statics.initial with mUseDvp := false, mWidth := 1920, mHeight := 1080,
                                 mCaptureTexture := 1 }
          (1920 * 1080 * 4 % UINT32) osAllows).out :=
  ⟨rfl, by rw [← strstr_isSome_iff_occurs]; decide, by rw [← strstr_isSome_iff_occurs]; decide,
    (C4_backend_B_runs_working_set_step .x64 Statics.initial 1920 1080 1 2 radeonContext
      osAllows dvpAllOk rfl (by rw [← strstr_isSome_iff_occurs]; decide)
      (by rw [← strstr_isSome_iff_occurs]; decide)).2.1⟩

/-- C8, refuted as stated: for one 1920 by 1080 BGRA frame and the default working set
(204800, 1413120) the maximum asked for is 664760320, below 1413120 + 80 × 8294400;
and for a working set (4096, 4096) the minimum asked for exceeds the maximum asked for. -/
theorem C8_requested_maximum_falls_short :
    requestedLimits (VideoFrameTransfer.initializeMemoryLocking .x64 Statics.initial
        frameBytes osAllows).trace = some (663756800, 664760320) ∧
    204800 ≤ 1413120 ∧
    ¬ (664760320 ≥ 1413120 + 80 * frameBytes) ∧
    requestedLimits (VideoFrameTransfer.initializeMemoryLocking .x64 Statics.initial
        frameBytes ⟨5, some (4096, 4096), true⟩).trace = some (663556096, 663552000) ∧
    ¬ (663556096 ≤ 663552000) := by
  decide

/-- C8, amended: when the process can be opened, the working set has not been cached yet and
the operating system reports (curMin, curMax) with curMin ≤ curMax, and neither the 32-bit
product 80 × memSize nor the sums wrap, the limits asked for are
new minimum = curMin + 80 × memSize and new maximum = 80 × memSize + (curMax − curMin);
so the new maximum is curMax + 80 × memSize less curMin, and
new minimum ≤ new maximum holds exactly when 2 × curMin ≤ curMax. -/
theorem C8_requested_limits (p : Platform) (g : Statics) (memSize : Nat) (os : OsAnswers)
    (curMin curMax : Nat) (hproc : os.hProcess ≠ 0) (hfirst : g.dwMin = 0)
    (hws : os.workingSet = some (curMin, curMax)) (hle : curMin ≤ curMax)
    (hbudget : 80 * memSize < UINT32) (hfit : 80 * memSize + curMax < p.sizeMod) :
    ∃ newMin newMax,
      requestedLimits (VideoFrameTransfer.initializeMemoryLocking p g memSize os).trace
        = some (newMin, newMax) ∧
      newMin = curMin + 80 * memSize ∧
      newMax = 80 * memSize + (curMax - curMin) ∧
      newMax + curMin = curMax + 80 * memSize ∧
      (newMin ≤ newMax ↔ 2 * curMin ≤ curMax) := by
  have hb : memSize * 80 % UINT32 = 80 * memSize := by
    rw [Nat.mod_eq_of_lt (by omega)]
    omega
  have h1 : requestedMin p memSize curMin = curMin + 80 * memSize := by
    unfold requestedMin Platform.add
    rw [hb, Nat.mod_eq_of_lt (by omega)]
    omega
  have hs : p.sub curMax curMin = curMax - curMin := by
    unfold Platform.sub
    rw [Nat.mod_eq_of_lt (show curMax < p.sizeMod by omega),
      Nat.mod_eq_of_lt (show curMin < p.sizeMod by omega)]
    have : curMax + p.sizeMod - curMin = (curMax - curMin) + p.sizeMod := by omega
    rw [this, Nat.add_mod_right, Nat.mod_eq_of_lt (by omega)]
  have h2 : requestedMax p memSize curMin curMax = 80 * memSize + (curMax - curMin) := by
    unfold requestedMax Platform.add
    rw [hb, hs, Nat.mod_eq_of_lt (by omega)]
  refine ⟨curMin + 80 * memSize, 80 * memSize + (curMax - curMin), ?_, rfl, rfl, by omega,
    by omega⟩
  unfold VideoFrameTransfer.initializeMemoryLocking
  simp only [hproc, hfirst, hws, if_false, if_true, h1, h2]
  cases os.setOk <;> simp [requestedLimits]

/-- C8 at a concrete input: one 1920 by 1080 BGRA frame, the default working set. -/
theorem C8_requested_limits_witness :
    osAllows.hProcess ≠ 0 ∧ Statics.initial.dwMin = 0 ∧
    osAllows.workingSet = some (204800, 1413120) ∧ 204800 ≤ 1413120 ∧
    80 * frameBytes < UINT32 ∧ 80 * frameBytes + 1413120 < Platform.x64.sizeMod ∧
    ∃ newMin newMax,
      requestedLimits (VideoFrameTransfer.initializeMemoryLocking .x64 Statics.initial
        frameBytes osAllows).trace = some (newMin, newMax) ∧
      newMin = 204800 + 80 * frameBytes ∧
      newMax = 80 * frameBytes + (1413120 - 204800) ∧
      newMax + 204800 = 1413120 + 80 * frameBytes ∧
      (newMin ≤ newMax ↔ 2 * 204800 ≤ 1413120) :=
  ⟨by decide, rfl, rfl, by decide, by decide, by decide,
    C8_requested_limits .x64 Statics.initial frameBytes osAllows 204800 1413120
      (by decide) rfl rfl (by decide) (by decide) (by decide)⟩

/-- C2: a session constructed under backend A registers, through `dvpCreateBuffer`, a
descriptor with height `mHeight` and, for GPUtoCPU, width `mWidth` and stride `mWidth * 4`,
for CPUtoGPU, width `mWidth / 2` and stride `(mWidth * 4) / 2`, the product taken in 32-bit
unsigned arithmetic; for 1920 by 1080 and CPUtoGPU that is width 960, stride 3840 = 960 × 4,
height 1080. It holds for every width, the even ones among them. -/
theorem C2_registered_descriptor (g : Statics) (memSize address : Nat) (direction : Direction)
    (a : CtorAnswers) (s : Session) (t : List Call) (hA : g.mUseDvp = true)
    (hnew : VideoFrameTransfer.new g memSize address direction a = (.ret s, t)) :
    ∃ desc, registeredDescriptor t = some desc ∧
      desc.height = g.mHeight ∧
      (direction = .GPUtoCPU → desc.width = g.mWidth ∧ desc.stride = g.mWidth * 4 % UINT32) ∧
      (direction = .CPUtoGPU →
        desc.width = g.mWidth / 2 ∧ desc.stride = g.mWidth * 4 % UINT32 / 2) ∧
      (g.mWidth = 1920 → g.mHeight = 1080 → direction = .CPUtoGPU →
        desc.width = 960 ∧ desc.stride = 3840 ∧ desc.stride = 960 * 4 ∧ desc.height = 1080) := by
  refine ⟨sysMemBuffersDesc g memSize address direction, ?_, ?_, ?_, ?_, ?_⟩
  · simp only [VideoFrameTransfer.new, hA, if_true, constructDvp, SyncInfo.new,
      Session.fresh] at hnew
    split_ifs at hnew <;> simp only [Prod.mk.injEq, reduceCtorEq, false_and] at hnew
    obtain ⟨-, rfl⟩ := hnew
    simp [registeredDescriptor]
  · unfold sysMemBuffersDesc
    split_ifs <;> rfl
  · rintro rfl
    simp [sysMemBuffersDesc]
  · rintro rfl
    simp [sysMemBuffersDesc]
  · rintro hw hh rfl
    simp [sysMemBuffersDesc, hw, hh, UINT32]

/-- C2 at a concrete input: 1920 by 1080, CPUtoGPU, every answer a success. -/
theorem C2_registered_descriptor_witness :
    quadroStatics.mUseDvp = true ∧
    VideoFrameTransfer.new quadroStatics frameBytes 65536 .CPUtoGPU ctorAllOk
      = (.ret quadroSession, quadroCtorTrace) ∧
    ∃ desc, registeredDescriptor quadroCtorTrace = some desc ∧
      desc.height = quadroStatics.mHeight ∧
      (Direction.CPUtoGPU = .GPUtoCPU →
        desc.width = quadroStatics.mWidth ∧ desc.stride = quadroStatics.mWidth * 4 % UINT32) ∧
      (Direction.CPUtoGPU = .CPUtoGPU →
        desc.width = quadroStatics.mWidth / 2 ∧
        desc.stride = quadroStatics.mWidth * 4 % UINT32 / 2) ∧
      (quadroStatics.mWidth = 1920 → quadroStatics.mHeight = 1080 →
        Direction.CPUtoGPU = .CPUtoGPU →
        desc.width = 960 ∧ desc.stride = 3840 ∧ desc.stride = 960 * 4 ∧ desc.height = 1080) :=
  ⟨rfl, by decide,
    C2_registered_descriptor quadroStatics frameBytes 65536 .CPUtoGPU ctorAllOk
      quadroSession quadroCtorTrace rfl (by decide)⟩

/-- One `performFrameTransfer` under backend A on a session with both sync objects:
it returns whether the copy status is the success status, and only the release counter of
the GPU-side sync object changes, by one. -/
theorem transferDvp_spec (g : Statics) (s : Session) (gpu ext : SyncInfo)
    (a : TransferAnswers) (hA : g.mUseDvp = true) (hgpu : s.mGpuSync = some gpu)
    (hext : s.mExtSync = some ext) :
    (VideoFrameTransfer.performFrameTransfer g s a).1 = .ret (a.copyStatus == DVP_STATUS_OK) ∧
    (VideoFrameTransfer.performFrameTransfer g s a).2.1 =
      { s with mGpuSync := some gpu.incRelease } := by
  unfold VideoFrameTransfer.performFrameTransfer transferDvp
  simp only [hA, if_true, hgpu, hext]
  split_ifs <;> exact ⟨rfl, rfl⟩

/-- C3: on a backend-A session, after N consecutive `performFrameTransfer` calls with nothing
in between, whatever copy statuses the backend reports, every call has returned and the
release counter of the GPU-side sync object is its value before the sequence plus N, as a
32-bit unsigned number; where that sum stays below 2^32 it is the sum itself. It holds for
either direction, GPUtoCPU among them. -/
theorem C3_release_counter_after_N_transfers (g : Statics) (s : Session) (gpu ext : SyncInfo)
    (answers : List TransferAnswers) (hA : g.mUseDvp = true) (hgpu : s.mGpuSync = some gpu)
    (hext : s.mExtSync = some ext) (hval : gpu.mReleaseValue < UINT32) :
    (performFrameTransfers g s answers).1
        = .ret (answers.map fun a => a.copyStatus == DVP_STATUS_OK) ∧
    (performFrameTransfers g s answers).2.1.mGpuSync.map SyncInfo.mReleaseValue
        = some ((gpu.mReleaseValue + answers.length) % UINT32) ∧
    (gpu.mReleaseValue + answers.length < UINT32 →
      (performFrameTransfers g s answers).2.1.mGpuSync.map SyncInfo.mReleaseValue
        = some (gpu.mReleaseValue + answers.length)) := by
  have key : ∀ (answers : List TransferAnswers) (s : Session) (gpu : SyncInfo),
      s.mGpuSync = some gpu → s.mExtSync = some ext → gpu.mReleaseValue < UINT32 →
      (performFrameTransfers g s answers).1
          = .ret (answers.map fun a => a.copyStatus == DVP_STATUS_OK) ∧
      (performFrameTransfers g s answers).2.1.mGpuSync.map SyncInfo.mReleaseValue
          = some ((gpu.mReleaseValue + answers.length) % UINT32) := by
    intro answers
    induction answers with
    | nil =>
      intro s gpu hgpu _ hval
      simp [performFrameTransfers, hgpu, Nat.mod_eq_of_lt hval]
    | cons a rest ih =>
      intro s gpu hgpu hext hval
      obtain ⟨h1, h2⟩ := transferDvp_spec g s gpu ext a hA hgpu hext
      have hlt : gpu.incRelease.mReleaseValue < UINT32 := Nat.mod_lt _ (by decide)
      obtain ⟨i1, i2⟩ := ih { s with mGpuSync := some gpu.incRelease } gpu.incRelease
        rfl hext hlt
      rcases hp : VideoFrameTransfer.performFrameTransfer g s a with ⟨o, s1, t⟩
      rw [hp] at h1 h2
      simp only at h1 h2
      subst h1 h2
      rcases hq : performFrameTransfers g { s with mGpuSync := some gpu.incRelease } rest
        with ⟨o2, s2, t2⟩
      rw [hq] at i1 i2
      simp only at i1 i2
      subst i1
      simp only [performFrameTransfers, hp, hq, List.map_cons, List.length_cons, true_and]
      rw [i2]
      simp only [SyncInfo.incRelease, Nat.mod_add_mod]
      congr 2
      omega
  obtain ⟨k1, k2⟩ := key answers s gpu hgpu hext hval
  refine ⟨k1, k2, fun hlt => ?_⟩
  rw [k2, Nat.mod_eq_of_lt hlt]

/-- C3 at a concrete input: three transfers on a fresh read-back session, the second one
with a failing copy status, leave the counter at 3. -/
theorem C3_release_counter_after_N_transfers_witness :
    quadroStatics.mUseDvp = true ∧
    readbackSession.mGpuSync = some ⟨8192, 0, 0, 22⟩ ∧
    readbackSession.mExtSync = some ⟨4096, 0, 0, 21⟩ ∧
    (0 : Nat) < UINT32 ∧
    (performFrameTransfers quadroStatics readbackSession
        [⟨0, 0, 0⟩, ⟨5, 0, 0⟩, ⟨0, 0, 0⟩]).1 = .ret [true, false, true] ∧
    (performFrameTransfers quadroStatics readbackSession
        [⟨0, 0, 0⟩, ⟨5, 0, 0⟩, ⟨0, 0, 0⟩]).2.1.mGpuSync.map SyncInfo.mReleaseValue
      = some ((0 + 3) % UINT32) ∧
    (0 + 3 < UINT32 →
      (performFrameTransfers quadroStatics readbackSession
        [⟨0, 0, 0⟩, ⟨5, 0, 0⟩, ⟨0, 0, 0⟩]).2.1.mGpuSync.map SyncInfo.mReleaseValue
        = some (0 + 3)) :=
  ⟨rfl, rfl, rfl, by decide,
    C3_release_counter_after_N_transfers quadroStatics readbackSession ⟨8192, 0, 0, 22⟩
      ⟨4096, 0, 0, 21⟩ [⟨0, 0, 0⟩, ⟨5, 0, 0⟩, ⟨0, 0, 0⟩] rfl rfl rfl (by decide)⟩

/-- C5, refuted as stated: on a backend-B session, in either direction, a transfer whose
client wait answers timeout-expired and that raises no GL error returns true. -/
theorem C5_timed_out_fence_returns_true :
    radeonStatics.mUseDvp = false ∧
    (VideoFrameTransfer.performFrameTransfer radeonStatics pinnedSession fenceTimedOut).1
      = .ret true ∧
    (VideoFrameTransfer.performFrameTransfer radeonStatics
      { pinnedSession with mDirection := .CPUtoGPU } fenceTimedOut).1 = .ret true ∧
    Call.glClientWaitSync 40000000 GL_TIMEOUT_EXPIRED ∈
      (VideoFrameTransfer.performFrameTransfer radeonStatics pinnedSession fenceTimedOut).2.2 := by
  decide

/-- C5, amended: under backend B `performFrameTransfer` waits on its fence for 40 ms,
drops the answer of that wait, and returns whether `glGetError` reports no error; the
session is left as it was. So a timed-out fence with no GL error returns true, and in two
calls in a row each result depends on its own call's GL error only: a later call that raises
no GL error returns true. -/
theorem C5_result_is_gl_error_only (g : Statics) (s : Session) (a b : TransferAnswers)
    (hB : g.mUseDvp = false) :
    (VideoFrameTransfer.performFrameTransfer g s a).1 = .ret (a.glError == GL_NO_ERROR) ∧
    (VideoFrameTransfer.performFrameTransfer g s a).2.1 = s ∧
    Call.glClientWaitSync 40000000 a.waitAnswer ∈
      (VideoFrameTransfer.performFrameTransfer g s a).2.2 ∧
    (performFrameTransfers g s [a, b]).1
      = .ret [a.glError == GL_NO_ERROR, b.glError == GL_NO_ERROR] ∧
    (b.glError = GL_NO_ERROR →
      ∃ first, (performFrameTransfers g s [a, b]).1 = .ret [first, true]) := by
  have h1 : ∀ (s : Session) (a : TransferAnswers),
      VideoFrameTransfer.performFrameTransfer g s a = transferPinned g s a := by
    intro s a
    simp [VideoFrameTransfer.performFrameTransfer, hB]
  have h2 : ∀ (s : Session) (a : TransferAnswers),
      (transferPinned g s a).1 = .ret (a.glError == GL_NO_ERROR) ∧
      (transferPinned g s a).2.1 = s ∧
      Call.glClientWaitSync 40000000 a.waitAnswer ∈ (transferPinned g s a).2.2 := by
    intro s a
    unfold transferPinned
    split_ifs <;> simp [fenceTimeoutNs]
  have h3 : (performFrameTransfers g s [a, b]).1
      = .ret [a.glError == GL_NO_ERROR, b.glError == GL_NO_ERROR] := by
    rcases hp : transferPinned g s a with ⟨o, s1, t⟩
    have ha := h2 s a
    rw [hp] at ha
    simp only at ha
    obtain ⟨rfl, rfl, -⟩ := ha
    rcases hq : transferPinned g s1 b with ⟨o2, s2, t2⟩
    have hb := h2 s1 b
    rw [hq] at hb
    simp only at hb
    obtain ⟨rfl, rfl, -⟩ := hb
    simp [performFrameTransfers, h1, hp, hq]
  refine ⟨?_, ?_, ?_, h3, fun hb => ⟨a.glError == GL_NO_ERROR, ?_⟩⟩
  · rw [h1]; exact (h2 s a).1
  · rw [h1]; exact (h2 s a).2.1
  · rw [h1]; exact (h2 s a).2.2
  · rw [h3, hb]
    simp

/-- C5 at a concrete input: a timed-out transfer, then one whose fence is signalled. -/
theorem C5_result_is_gl_error_only_witness :
    radeonStatics.mUseDvp = false ∧
    (performFrameTransfers radeonStatics pinnedSession [fenceTimedOut, fenceSignalled]).1
      = .ret [fenceTimedOut.glError == GL_NO_ERROR, fenceSignalled.glError == GL_NO_ERROR] ∧
    (performFrameTransfers radeonStatics pinnedSession [fenceTimedOut, fenceSignalled]).1
      = .ret [true, true] :=
  ⟨rfl,
    (C5_result_is_gl_error_only radeonStatics pinnedSession fenceTimedOut fenceSignalled rfl).2.2.2.1,
    by decide⟩

/-- C6, the code at the failing input: on a context with neither the marker nor the
extension `initialize` returns false and leaves the statics, `mUseDvp` = false among them,
as they were. The constructor, for every size, address and direction, then takes the
backend-B branch: it generates a buffer object, binds it to the pinned-memory target, hands
the address range to `glBufferData` and reads `glGetError`. When the driver reports an
error there, as a driver without the pinned-memory target does, the constructor throws, so
no session is produced; but these four calls are all it has issued: the buffer object it
generated is acquired and not released, and it is still bound to the pinned-memory
target. -/
theorem C6_refusal_leaves_buffer_object (p : Platform) (g : Statics)
    (width height captureTexture playbackTexture : Nat) (ctx : GLContext) (os : OsAnswers)
    (d : DvpInitAnswers) (memSize address : Nat) (direction : Direction) (a : CtorAnswers)
    (hA : ¬ quadroMarker <:+: ctx.renderer) (hB : ¬ amdPinnedMarker <:+: ctx.extensions)
    (h0 : g.mUseDvp = false) (herr : a.glError ≠ GL_NO_ERROR) :
    ( VideoFrameTransfer.initialize p g width height captureTexture playbackTexture
        ctx os d).out = .ret false ∧
    ( VideoFrameTransfer.initialize p g width height captureTexture playbackTexture
        ctx os d).statics = g ∧
    VideoFrameTransfer.new ( VideoFrameTransfer.initialize p g width height captureTexture
        playbackTexture ctx os d).statics memSize address direction a
      = (.thrown
          "Error pinning memory with glBufferData(GL_EXTERNAL_VIRTUAL_MEMORY_BUFFER_AMD, ...)",
         [.glGenBuffers a.genHandle,
          .glBindBuffer .GL_EXTERNAL_VIRTUAL_MEMORY_BUFFER_AMD a.genHandle,
          .glBufferData .GL_EXTERNAL_VIRTUAL_MEMORY_BUFFER_AMD memSize address,
          .glGetError a.glError]) ∧
    acquired (VideoFrameTransfer.new ( VideoFrameTransfer.initialize p g width height
        captureTexture playbackTexture ctx os d).statics memSize address direction a).2
      = [.glBuffer a.genHandle] ∧
    released (VideoFrameTransfer.new ( VideoFrameTransfer.initialize p g width height
        captureTexture playbackTexture ctx os d).statics memSize address direction a).2
      = [] ∧
    pinnedTargetBinding 0 (VideoFrameTransfer.new ( VideoFrameTransfer.initialize p g width
        height captureTexture playbackTexture ctx os d).statics memSize address direction a).2
      = a.genHandle := by
  rw [← strstr_isSome_iff_occurs] at hA hB
  have hs : ( VideoFrameTransfer.initialize p g width height captureTexture playbackTexture
      ctx os d).out = .ret false ∧
      ( VideoFrameTransfer.initialize p g width height captureTexture playbackTexture
      ctx os d).statics = g := by
    unfold VideoFrameTransfer.initialize VideoFrameTransfer.isNvidiaDvpAvailable
      VideoFrameTransfer.isAMDPinnedMemoryAvailable
    by_cases hi : g.mInitialized = true <;> simp [hi, hA, hB]
  have hnew : VideoFrameTransfer.new g memSize address direction a
      = (.thrown
          "Error pinning memory with glBufferData(GL_EXTERNAL_VIRTUAL_MEMORY_BUFFER_AMD, ...)",
         [.glGenBuffers a.genHandle,
          .glBindBuffer .GL_EXTERNAL_VIRTUAL_MEMORY_BUFFER_AMD a.genHandle,
          .glBufferData .GL_EXTERNAL_VIRTUAL_MEMORY_BUFFER_AMD memSize address,
          .glGetError a.glError]) := by
    simp [VideoFrameTransfer.new, h0, constructPinned, herr, Session.fresh]
  rw [hs.2, hnew]
  refine ⟨hs.1, rfl, rfl, ?_, ?_, ?_⟩
  · simp [acquired, Call.acquires]
  · simp [released, Call.releases]
  · simp [pinnedTargetBinding]

/-- C6 at the failing input: `plainContext`, process start, one frame to read back, a
driver that answers the pinned-memory target with `GL_INVALID_ENUM`. -/
theorem C6_refusal_leaves_buffer_object_witness :
    ¬ quadroMarker <:+: plainContext.renderer ∧
    ¬ amdPinnedMarker <:+: plainContext.extensions ∧
    Statics.initial.mUseDvp = false ∧
    ctorInvalidEnum.glError ≠ GL_NO_ERROR ∧
    VideoFrameTransfer.initialize .x64 Statics.initial 1920 1080 1 2 plainContext osAllows
      dvpAllOk = ⟨.ret false, Statics.initial,
        [.glGetString .GL_RENDERER, .glGetString .GL_EXTENSIONS]⟩ ∧
    VideoFrameTransfer.new Statics.initial frameBytes 65536 .GPUtoCPU ctorInvalidEnum
      = (.thrown
          "Error pinning memory with glBufferData(GL_EXTERNAL_VIRTUAL_MEMORY_BUFFER_AMD, ...)",
         [.glGenBuffers 7, .glBindBuffer .GL_EXTERNAL_VIRTUAL_MEMORY_BUFFER_AMD 7,
          .glBufferData .GL_EXTERNAL_VIRTUAL_MEMORY_BUFFER_AMD frameBytes 65536,
          .glGetError 0x0500]) ∧
    acquired (VideoFrameTransfer.new ( VideoFrameTransfer.initialize .x64 Statics.initial
        1920 1080 1 2 plainContext osAllows dvpAllOk).statics frameBytes 65536 .GPUtoCPU
        ctorInvalidEnum).2 = [.glBuffer ctorInvalidEnum.genHandle] ∧
    released (VideoFrameTransfer.new ( VideoFrameTransfer.initialize .x64 Statics.initial
        1920 1080 1 2 plainContext osAllows dvpAllOk).statics frameBytes 65536 .GPUtoCPU
        ctorInvalidEnum).2 = [] ∧
    pinnedTargetBinding 0 (VideoFrameTransfer.new ( VideoFrameTransfer.initialize .x64
        Statics.initial 1920 1080 1 2 plainContext osAllows dvpAllOk).statics frameBytes 65536
        .GPUtoCPU ctorInvalidEnum).2 = ctorInvalidEnum.genHandle :=
  ⟨by rw [← strstr_isSome_iff_occurs]; decide, by rw [← strstr_isSome_iff_occurs]; decide, rfl,
    by decide, by decide, by decide,
    (C6_refusal_leaves_buffer_object .x64 Statics.initial 1920 1080 1 2 plainContext
      osAllows dvpAllOk frameBytes 65536 .GPUtoCPU ctorInvalidEnum
      (by rw [← strstr_isSome_iff_occurs]; decide) (by rw [← strstr_isSome_iff_occurs]; decide)
      rfl (by decide)).2.2.2⟩

/-- C9, the code at the failing input: under backend A a failed `VirtualLock` throws with
nothing acquired; under backend B an error after `glBufferData` throws while the buffer
object generated for the session has not been deleted and is still bound to the
pinned-memory target. -/
theorem C9_pinning_error_leaves_buffer_object :
    VideoFrameTransfer.new quadroStatics frameBytes 65536 .CPUtoGPU ctorLockFails
      = (.thrown "Error pinning memory with VirtualLock",
         [.VirtualLock 65536 frameBytes false]) ∧
    acquired (VideoFrameTransfer.new quadroStatics frameBytes 65536 .CPUtoGPU ctorLockFails).2
      = [] ∧
    VideoFrameTransfer.new radeonStatics frameBytes 65536 .CPUtoGPU ctorOutOfMemory
      = (.thrown
          "Error pinning memory with glBufferData(GL_EXTERNAL_VIRTUAL_MEMORY_BUFFER_AMD, ...)",
         [.glGenBuffers 7, .glBindBuffer .GL_EXTERNAL_VIRTUAL_MEMORY_BUFFER_AMD 7,
          .glBufferData .GL_EXTERNAL_VIRTUAL_MEMORY_BUFFER_AMD frameBytes 65536,
          .glGetError 0x0505]) ∧
    acquired (VideoFrameTransfer.new radeonStatics frameBytes 65536 .CPUtoGPU
      ctorOutOfMemory).2 = [.glBuffer 7] ∧
    released (VideoFrameTransfer.new radeonStatics frameBytes 65536 .CPUtoGPU
      ctorOutOfMemory).2 = [] ∧
    pinnedTargetBinding 0 (VideoFrameTransfer.new radeonStatics frameBytes 65536 .CPUtoGPU
      ctorOutOfMemory).2 = 7 := by
  decide

/-- The order in which the destructor gives back what the constructor took, seen as a
rearrangement of seven items. -/
theorem perm_teardown_order {α : Type} (a b c d e f g : α) :
    [a, b, c, d, e, f, g].Perm [g, d, c, f, e, b, a] := by
  rw [← Multiset.coe_eq_coe]
  simp only [← Multiset.cons_coe, ← Multiset.singleton_add]
  abel

/-- A destructor that returns has released exactly what `Session.releasedBy` lists. -/
theorem delete_released (g : Statics) (s : Session) (a : DtorAnswers) (t : List Call)
    (h : VideoFrameTransfer.delete g s a = (.ret (), t)) :
    released t = s.releasedBy g.mUseDvp := by
  unfold Session.releasedBy
  unfold VideoFrameTransfer.delete at h ⊢
  cases hu : g.mUseDvp
  · simp only [hu, Bool.false_eq_true, if_false, Prod.mk.injEq, true_and] at h ⊢
    subst h
    rfl
  · rcases hx : s.mExtSync with _ | ext <;> rcases hy : s.mGpuSync with _ | gpu <;>
      simp only [hu, hx, hy, if_true, deleteSync, SyncInfo.delete, dvpCheckFailed] at h ⊢ <;>
      split_ifs at h <;>
      simp only [Prod.mk.injEq, reduceCtorEq, false_and, true_and] at h <;>
      subst h <;>
      simp_all [DVP_STATUS_OK, released, Call.releases]

/-- What a successfully constructed session would release is what its constructor
acquired. -/
theorem new_acquired (g : Statics) (memSize address : Nat) (direction : Direction)
    (a : CtorAnswers) (s : Session) (t : List Call)
    (h : VideoFrameTransfer.new g memSize address direction a = (.ret s, t)) :
    (s.releasedBy g.mUseDvp).Perm (acquired t) := by
  unfold Session.releasedBy
  unfold VideoFrameTransfer.new at h
  cases hu : g.mUseDvp
  · simp only [hu, Bool.false_eq_true, if_false, constructPinned, Session.fresh] at h
    split_ifs at h <;>
      simp only [Prod.mk.injEq, reduceCtorEq, false_and, Outcome.ret.injEq] at h
    obtain ⟨rfl, rfl⟩ := h
    simp [VideoFrameTransfer.delete, released, Call.releases, acquired, Call.acquires]
  · simp only [hu, if_true, constructDvp, SyncInfo.new, Session.fresh] at h
    split_ifs at h <;>
      simp only [Prod.mk.injEq, reduceCtorEq, false_and, Outcome.ret.injEq] at h
    obtain ⟨rfl, rfl⟩ := h
    simp_all [VideoFrameTransfer.delete, deleteSync, SyncInfo.delete, released, Call.releases,
      acquired, Call.acquires, DVP_STATUS_OK]
    exact perm_teardown_order _ _ _ _ _ _ _

/-- A transfer does not change what the destructor would release. -/
theorem performFrameTransfer_releasedBy (g : Statics) (s : Session) (a : TransferAnswers)
    (b : Bool) :
    (VideoFrameTransfer.performFrameTransfer g s a).2.1.releasedBy b = s.releasedBy b := by
  unfold VideoFrameTransfer.performFrameTransfer transferDvp transferPinned Session.releasedBy
    VideoFrameTransfer.delete
  rcases hx : s.mExtSync with _ | ext <;> rcases hy : s.mGpuSync with _ | gpu <;>
    cases g.mUseDvp <;> cases b <;> cases s.mDirection <;>
    simp [hx, hy, deleteSync, SyncInfo.delete, SyncInfo.incRelease]

/-- The wait leaves the session as it was. -/
theorem waitForTransferComplete_session (g : Statics) (s : Session) :
    (VideoFrameTransfer.waitForTransferComplete g s).2.1 = s := by
  unfold VideoFrameTransfer.waitForTransferComplete
  split_ifs
  · rfl
  · split <;> rfl
  · rfl

/-- The opening texture bracket leaves the session as it was. -/
theorem beginTextureInUse_session (g : Statics) (s : Session) (d : Direction) :
    (VideoFrameTransfer.beginTextureInUse g s d).2.1 = s := by
  unfold VideoFrameTransfer.beginTextureInUse
  split_ifs <;> rfl

/-- The closing texture bracket leaves the session as it was. -/
theorem endTextureInUse_session (g : Statics) (s : Session) (d : Direction) :
    (VideoFrameTransfer.endTextureInUse g s d).2.1 = s := by
  unfold VideoFrameTransfer.endTextureInUse
  split_ifs <;> rfl

/-- Replacing the session of a live entry by one that releases the same keeps the world
consistent. -/
theorem consistent_set (w : World) (i : Nat) (e : Entry) (s1 : Session)
    (hw : w.Consistent) (he : w.sessions[i]? = some e)
    (hs : ∀ b, s1.releasedBy b = e.session.releasedBy b) :
    World.Consistent { w with sessions := w.sessions.set i { e with session := s1 } } := by
  intro x hx
  rcases List.mem_or_eq_of_mem_set hx with hmem | rfl
  · exact hw x hmem
  · have := hw e (List.getElem?_mem he)
    exact ⟨by simpa [hs] using this.1, this.2⟩

/-- A call of `initialize` on an initialised module changes no static. -/
theorem initialize_statics_of_initialized (p : Platform) (g : Statics)
    (width height captureTexture playbackTexture : Nat) (ctx : GLContext) (os : OsAnswers)
    (d : DvpInitAnswers) (hinit : g.mInitialized = true) :
    ( VideoFrameTransfer.initialize p g width height captureTexture playbackTexture
        ctx os d).statics = g := by
  unfold VideoFrameTransfer.initialize
  simp [hinit]

/-- Every public call keeps the world consistent, and a destructor run it contains is
balanced. -/
theorem step_consistent (p : Platform) (w : World) (op : Op) (hw : w.Consistent) :
    (step p w op).world.Consistent ∧ ∀ r ∈ (step p w op).destroyed, r.Balanced := by
  cases op with
  | init width height captureTexture playbackTexture ctx os d =>
    refine ⟨?_, by simp [step]⟩
    intro e he
    simp only [step] at he ⊢
    refine ⟨(hw e he).1, fun hborn => ?_⟩
    have h := (hw e he).2 hborn
    rw [initialize_statics_of_initialized p w.statics _ _ _ _ _ _ _ h.1]
    exact h
  | construct memSize address direction a =>
    rcases hn : VideoFrameTransfer.new w.statics memSize address direction a with ⟨o, t⟩
    cases o with
    | ret s =>
      simp only [step, hn]
      refine ⟨?_, by simp⟩
      intro e he
      rcases List.mem_append.1 he with hmem | hlast
      · exact hw e hmem
      · simp only [List.mem_singleton] at hlast
        subst hlast
        exact ⟨new_acquired _ _ _ _ _ _ _ hn, fun hborn => ⟨hborn, rfl⟩⟩
    | thrown m => simpa [step, hn] using hw
    | exited c => simpa [step, hn] using hw
    | nullDeref => simpa [step, hn] using hw
  | transfer i a =>
    rcases he : w.sessions[i]? with _ | e
    · simpa [step, he] using hw
    · simp only [step, he]
      exact ⟨consistent_set w i e _ hw he (performFrameTransfer_releasedBy _ _ _), by simp⟩
  | wait i =>
    rcases he : w.sessions[i]? with _ | e
    · simpa [step, he] using hw
    · simp only [step, he]
      exact ⟨consistent_set w i e _ hw he
        (fun b => by rw [waitForTransferComplete_session]), by simp⟩
  | beginTexture i direction =>
    rcases he : w.sessions[i]? with _ | e
    · simpa [step, he] using hw
    · simp only [step, he]
      exact ⟨consistent_set w i e _ hw he
        (fun b => by rw [beginTextureInUse_session]), by simp⟩
  | endTexture i direction =>
    rcases he : w.sessions[i]? with _ | e
    · simpa [step, he] using hw
    · simp only [step, he]
      exact ⟨consistent_set w i e _ hw he
        (fun b => by rw [endTextureInUse_session]), by simp⟩
  | destroy i a =>
    rcases he : w.sessions[i]? with _ | e
    · simpa [step, he] using hw
    · simp only [step, he]
      refine ⟨fun x hx => hw x (List.mem_of_mem_eraseIdx hx), ?_⟩
      intro r hr
      simp only [List.mem_singleton] at hr
      subst hr
      have hinv := hw e (List.getElem?_mem he)
      refine ⟨fun hborn => ((hinv.2 hborn).2).symm, fun hret hsame => ?_⟩
      simp only [beq_iff_eq] at hret
      simp only at hsame
      have hrel := delete_released w.statics e.session a
        (VideoFrameTransfer.delete w.statics e.session a).2 (Prod.ext hret rfl)
      simp only
      rw [hrel, ← hsame]
      exact hinv.1

/-- Every sequence of public calls keeps the world consistent, and every destructor run in
it is balanced. -/
theorem run_consistent (p : Platform) (ops : List Op) :
    ∀ w : World, w.Consistent →
      (run p w ops).world.Consistent ∧ ∀ r ∈ (run p w ops).destroyed, r.Balanced := by
  induction ops with
  | nil =>
    intro w hw
    exact ⟨hw, by simp [run]⟩
  | cons op rest ih =>
    intro w hw
    obtain ⟨h1, h2⟩ := step_consistent p w op hw
    unfold run
    by_cases ha : (step p w op).alive = true
    · obtain ⟨i1, i2⟩ := ih (step p w op).world h1
      simp only [ha, if_true]
      refine ⟨i1, fun r hr => ?_⟩
      rcases List.mem_append.1 hr with h | h
      · exact h2 r h
      · exact i2 r h
    · simp only [ha, Bool.false_eq_true, if_false]
      exact ⟨h1, h2⟩

/-- C7, refuted as stated: a session constructed before `initialize` succeeds on a Quadro
board takes the backend-B branch and acquires a buffer object; its destructor, run after
that initialisation, takes the backend-A branch. Where the DVP library answers with
success it returns: it has unbound and destroyed the DVP handle 0 and unlocked pages that
were never locked, and the buffer object stays. Where the DVP library rejects the unbinding
of handle 0 the process is ended, the buffer object not deleted either. -/
theorem C7_early_session_is_torn_down_by_the_other_backend :
    (run .x64 World.start earlySession).destroyed
      = [⟨[.glBuffer 7], [.dvpBinding 0, .dvpBuffer 0, .pageLock 65536 frameBytes],
          false, false, true, true⟩] ∧
    (run .x64 World.start earlySession).alive = true ∧
    ¬ [Resource.dvpBinding 0, .dvpBuffer 0, .pageLock 65536 frameBytes].Perm [.glBuffer 7] ∧
    Resource.glBuffer 7 ∉ [Resource.dvpBinding 0, .dvpBuffer 0, .pageLock 65536 frameBytes] ∧
    Resource.pageLock 65536 frameBytes ∉ [Resource.glBuffer 7] ∧
    (run .x64 World.start earlySessionRejected).destroyed
      = [⟨[.glBuffer 7], [.dvpBinding 0], false, false, true, false⟩] ∧
    (run .x64 World.start earlySessionRejected).alive = false := by
  decide

/-- C7, amended: start the process, run any sequence of public calls (initialisations,
constructions, transfers, waits, texture brackets, destructions, in any order), and look at
any destructor run in it. If the session was constructed after a successful initialisation,
`mUseDvp` is at its destruction what it was at its construction. And if `mUseDvp` is at
destruction what it was at construction (so, for every session constructed after a
successful initialisation) and the destructor returns, the destructor has released what the
constructor acquired, each resource exactly as often: nothing acquired is left, nothing
else is released. -/
theorem C7_destructor_releases_what_constructor_acquired (p : Platform) (ops : List Op)
    (r : Destroyed) (hr : r ∈ (run p World.start ops).destroyed) :
    (r.bornInitialized = true → r.bornUseDvp = r.diedUseDvp) ∧
    (r.returned = true → r.bornUseDvp = r.diedUseDvp → r.released.Perm r.acquired) ∧
    (r.returned = true → r.bornInitialized = true → r.released.Perm r.acquired) := by
  have hstart : World.start.Consistent := by
    intro e he
    simp [World.start] at he
  obtain ⟨h1, h2⟩ := (run_consistent p ops World.start hstart).2 r hr
  exact ⟨h1, h2, fun hret hborn => h2 hret (h1 hborn)⟩

/-- C7 at a concrete input: the session of `regularLife`, constructed after the
initialisation and destroyed after a transfer and a refused second initialisation. -/
theorem C7_destructor_releases_what_constructor_acquired_witness :
    (⟨[.pageLock 65536 frameBytes, .semaphoreMemory 4096, .syncObject 21,
       .semaphoreMemory 8192, .syncObject 22, .dvpBuffer 31, .dvpBinding 31],
      [.dvpBinding 31, .dvpBuffer 31, .syncObject 21, .semaphoreMemory 4096, .syncObject 22,
       .semaphoreMemory 8192, .pageLock 65536 frameBytes],
      true, true, true, true⟩ : Destroyed) ∈ (run .x64 World.start regularLife).destroyed ∧
    [Resource.dvpBinding 31, .dvpBuffer 31, .syncObject 21, .semaphoreMemory 4096,
      .syncObject 22, .semaphoreMemory 8192, .pageLock 65536 frameBytes].Perm
      [.pageLock 65536 frameBytes, .semaphoreMemory 4096, .syncObject 21,
       .semaphoreMemory 8192, .syncObject 22, .dvpBuffer 31, .dvpBinding 31] :=
  ⟨by decide,
    (C7_destructor_releases_what_constructor_acquired .x64 regularLife
      ⟨[.pageLock 65536 frameBytes, .semaphoreMemory 4096, .syncObject 21,
        .semaphoreMemory 8192, .syncObject 22, .dvpBuffer 31, .dvpBinding 31],
       [.dvpBinding 31, .dvpBuffer 31, .syncObject 21, .semaphoreMemory 4096, .syncObject 22,
        .semaphoreMemory 8192, .pageLock 65536 frameBytes],
       true, true, true, true⟩ (by decide)).2.2 rfl rfl⟩

/-- Writing back the element a list holds at a position leaves the list as it was. -/
theorem set_same {α : Type} (l : List α) (i : Nat) (a : α) (h : l[i]? = some a) :
    l.set i a = l := by
  induction l generalizing i with
  | nil => simp
  | cons x xs ih =>
    cases i with
    | zero =>
      simp only [List.getElem?_cons_zero, Option.some.injEq] at h
      simp [h]
    | succ n =>
      simp only [List.getElem?_cons_succ] at h
      simp [ih n h]

/-- C11: on a session that holds its GPU-side sync object (every session constructed under
backend A does), `waitForTransferComplete` with backend A active and direction GPUtoCPU
issues `dvpBegin`, one wait on the GPU-side sync object with the ignore-timeout value, and
`dvpEnd`; in every other combination (backend B with either direction, backend A with
CPUtoGPU) it returns at once with no call issued and the session as it was. A wait is only
ever issued under backend A with direction GPUtoCPU, on the GPU-side sync object and with
the ignore-timeout value. In no combination does the call change the session, the other
live sessions or the statics. -/
theorem C11_wait_only_for_backend_A_readback (p : Platform) (g : Statics) (s : Session)
    (w : World) (i : Nat) :
    (∀ gpu, s.mGpuSync = some gpu → g.mUseDvp = true → s.mDirection = .GPUtoCPU →
      VideoFrameTransfer.waitForTransferComplete g s
        = (.ret (), s, [.dvpBegin,
            .dvpSyncObjClientWaitComplete gpu.mDvpSync DVP_TIMEOUT_IGNORED, .dvpEnd])) ∧
    (¬ (g.mUseDvp = true ∧ s.mDirection = .GPUtoCPU) →
      VideoFrameTransfer.waitForTransferComplete g s = (.ret (), s, [])) ∧
    (∀ sync timeout, Call.dvpSyncObjClientWaitComplete sync timeout ∈
        (VideoFrameTransfer.waitForTransferComplete g s).2.2 →
      g.mUseDvp = true ∧ s.mDirection = .GPUtoCPU ∧ timeout = DVP_TIMEOUT_IGNORED ∧
      s.mGpuSync.map SyncInfo.mDvpSync = some sync) ∧
    (VideoFrameTransfer.waitForTransferComplete g s).2.1 = s ∧
    (step p w (.wait i)).world = w := by
  refine ⟨?_, ?_, ?_, waitForTransferComplete_session g s, ?_⟩
  · intro gpu hgpu hA hdir
    simp [VideoFrameTransfer.waitForTransferComplete, hgpu, hA, hdir]
  · intro hnot
    unfold VideoFrameTransfer.waitForTransferComplete
    cases hA : g.mUseDvp
    · simp
    · have hdir : s.mDirection ≠ .GPUtoCPU := fun h => hnot ⟨hA, h⟩
      simp [hdir]
  · intro sync timeout hmem
    unfold VideoFrameTransfer.waitForTransferComplete at hmem
    cases hA : g.mUseDvp
    · simp [hA] at hmem
    · by_cases hdir : s.mDirection = .GPUtoCPU
      · rcases hgpu : s.mGpuSync with _ | gpu
        · simp [hA, hdir, hgpu] at hmem
        · simp only [hA, hdir, hgpu, Bool.not_true, Bool.false_eq_true, if_false, if_true,
            List.mem_cons, reduceCtorEq, Call.dvpSyncObjClientWaitComplete.injEq,
            List.mem_singleton, false_or, or_false, List.not_mem_nil] at hmem
          obtain ⟨rfl, rfl⟩ := hmem
          simp [hdir]
      · simp [hA, hdir] at hmem
  · rcases he : w.sessions[i]? with _ | e
    · simp [step, he]
    · simp only [step, he, waitForTransferComplete_session]
      have : w.sessions.set i { e with session := e.session } = w.sessions :=
        set_same w.sessions i e he
      rw [this]

/-- C11 at concrete inputs: the wait on a read-back session under backend A, and the three
other combinations. -/
theorem C11_wait_only_for_backend_A_readback_witness :
    VideoFrameTransfer.waitForTransferComplete quadroStatics readbackSession
      = (.ret (), readbackSession,
          [.dvpBegin, .dvpSyncObjClientWaitComplete 22 DVP_TIMEOUT_IGNORED, .dvpEnd]) ∧
    VideoFrameTransfer.waitForTransferComplete quadroStatics quadroSession
      = (.ret (), quadroSession, []) ∧
    VideoFrameTransfer.waitForTransferComplete radeonStatics pinnedSession
      = (.ret (), pinnedSession, []) ∧
    VideoFrameTransfer.waitForTransferComplete radeonStatics
      { pinnedSession with mDirection := .CPUtoGPU }
      = (.ret (), { pinnedSession with mDirection := .CPUtoGPU }, []) :=
  ⟨(C11_wait_only_for_backend_A_readback .x64 quadroStatics readbackSession World.start 0).1
      ⟨8192, 0, 0, 22⟩ rfl rfl rfl,
    by decide, by decide, by decide⟩

/-- A session constructed under backend A holds two sync objects whose counters are all
zero. -/
theorem new_dvp_sync_objects (g : Statics) (memSize address : Nat) (direction : Direction)
    (a : CtorAnswers) (s : Session) (t : List Call) (hA : g.mUseDvp = true)
    (hnew : VideoFrameTransfer.new g memSize address direction a = (.ret s, t)) :
    s.mExtSync = some ⟨a.extSync.pointer, 0, 0, a.extSync.handle⟩ ∧
    s.mGpuSync = some ⟨a.gpuSync.pointer, 0, 0, a.gpuSync.handle⟩ := by
  simp only [VideoFrameTransfer.new, hA, if_true, constructDvp, SyncInfo.new,
    Session.fresh] at hnew
  split_ifs at hnew <;>
    simp only [Prod.mk.injEq, reduceCtorEq, false_and, Outcome.ret.injEq] at hnew
  obtain ⟨rfl, -⟩ := hnew
  exact ⟨rfl, rfl⟩

/-- One per-frame call under backend A on a session with both sync objects: it returns,
at most the release counter of the GPU-side sync object has changed, and a copy it issues
is synchronised on the external sync object, at that object's acquire or release value. -/
theorem frameCall_keeps (g : Statics) (s : Session) (gpu ext : SyncInfo) (v : Nat)
    (c : FrameCall) (hA : g.mUseDvp = true) (hext : s.mExtSync = some ext) :
    (frameCall g { s with mGpuSync := some { gpu with mReleaseValue := v } } c).1 = true ∧
    (∃ v2, (frameCall g { s with mGpuSync := some { gpu with mReleaseValue := v } } c).2.1
        = { s with mGpuSync := some { gpu with mReleaseValue := v2 } }) ∧
    (∀ src srcSync value timeout dst dstSync rel start lines status,
      Call.dvpMemcpyLined src srcSync value timeout dst dstSync rel start lines status ∈
        (frameCall g { s with mGpuSync := some { gpu with mReleaseValue := v } } c).2.2 →
      srcSync = ext.mDvpSync ∧ (value = ext.mAcquireValue ∨ value = ext.mReleaseValue)) := by
  cases c with
  | performFrameTransfer a =>
    unfold frameCall VideoFrameTransfer.performFrameTransfer transferDvp
    cases hd : s.mDirection <;>
      simp [hA, hext, hd, Outcome.returned, SyncInfo.incRelease] <;>
      intro _ _ _ _ _ _ _ _ _ _ _ h1 h2 _ _ _ _ _ _ _ <;>
      simp [h1, h2]
  | waitForTransferComplete =>
    unfold frameCall VideoFrameTransfer.waitForTransferComplete
    cases hd : s.mDirection <;> simp [hA, hd, Outcome.returned]
  | beginTextureInUse direction =>
    unfold frameCall VideoFrameTransfer.beginTextureInUse
    cases direction <;> simp [hA, Outcome.returned]
  | endTextureInUse direction =>
    unfold frameCall VideoFrameTransfer.endTextureInUse
    cases direction <;> simp [hA, Outcome.returned]

/-- Any sequence of per-frame calls under backend A on a session with both sync objects:
all calls return, at most the release counter of the GPU-side sync object has changed, and
every copy is synchronised on the external sync object, at that object's acquire or release
value. -/
theorem frameCalls_keeps (g : Statics) (s : Session) (gpu ext : SyncInfo)
    (hA : g.mUseDvp = true) (hext : s.mExtSync = some ext) (calls : List FrameCall) :
    ∀ v : Nat,
    (frameCalls g { s with mGpuSync := some { gpu with mReleaseValue := v } } calls).1 = true ∧
    (∃ v2, (frameCalls g { s with mGpuSync := some { gpu with mReleaseValue := v } } calls).2.1
        = { s with mGpuSync := some { gpu with mReleaseValue := v2 } }) ∧
    (∀ src srcSync value timeout dst dstSync rel start lines status,
      Call.dvpMemcpyLined src srcSync value timeout dst dstSync rel start lines status ∈
        (frameCalls g { s with mGpuSync := some { gpu with mReleaseValue := v } } calls).2.2 →
      srcSync = ext.mDvpSync ∧ (value = ext.mAcquireValue ∨ value = ext.mReleaseValue)) := by
  induction calls with
  | nil =>
    intro v
    exact ⟨rfl, ⟨v, rfl⟩, by simp [frameCalls]⟩
  | cons c rest ih =>
    intro v
    obtain ⟨h1, ⟨v2, h2⟩, h3⟩ := frameCall_keeps g s gpu ext v c hA hext
    obtain ⟨i1, ⟨v3, i2⟩, i3⟩ := ih v2
    unfold frameCalls
    simp only [h1, if_true, h2]
    refine ⟨i1, ⟨v3, i2⟩, ?_⟩
    intro src srcSync value timeout dst dstSync rel start lines status hmem
    rcases List.mem_append.1 hmem with h | h
    · exact h3 _ _ _ _ _ _ _ _ _ _ h
    · exact i3 _ _ _ _ _ _ _ _ _ _ h

/-- What one `performFrameTransfer` leaves alone, on any session and under either backend:
direction, buffer, size, both handles, the external sync object, and of the GPU-side sync
object everything but the release counter. -/
theorem performFrameTransfer_frame (g : Statics) (s : Session) (a : TransferAnswers) :
    (VideoFrameTransfer.performFrameTransfer g s a).2.1.mDirection = s.mDirection ∧
    (VideoFrameTransfer.performFrameTransfer g s a).2.1.mBuffer = s.mBuffer ∧
    (VideoFrameTransfer.performFrameTransfer g s a).2.1.mMemSize = s.mMemSize ∧
    (VideoFrameTransfer.performFrameTransfer g s a).2.1.mDvpSysMemHandle
      = s.mDvpSysMemHandle ∧
    (VideoFrameTransfer.performFrameTransfer g s a).2.1.mBufferHandle = s.mBufferHandle ∧
    (VideoFrameTransfer.performFrameTransfer g s a).2.1.mExtSync = s.mExtSync ∧
    (VideoFrameTransfer.performFrameTransfer g s a).2.1.mGpuSync.map
        (fun i => (i.mSem, i.mAcquireValue, i.mDvpSync))
      = s.mGpuSync.map (fun i => (i.mSem, i.mAcquireValue, i.mDvpSync)) := by
  unfold VideoFrameTransfer.performFrameTransfer transferDvp transferPinned
  rcases hx : s.mExtSync with _ | ext <;> rcases hy : s.mGpuSync with _ | gpu <;>
    cases hu : g.mUseDvp <;> cases hd : s.mDirection <;>
    simp [hx, hy, hd, SyncInfo.incRelease]

/-- C12: take a session as the constructor returns it under backend A, and run on it any
sequence of `performFrameTransfer`, `waitForTransferComplete`, `beginTextureInUse` and
`endTextureInUse` calls under backend A. The constructor has set the four counters of the
two sync objects to zero; every call of the sequence returns; the session it leaves is
the constructed one with at most another release value in the GPU-side sync object (so the
external acquire and release values and the GPU-side acquire value are still zero, and
direction, buffer, size and handles are unchanged); and every `dvpMemcpyLined` of the
sequence is synchronised on the external sync object at the value zero. One
`performFrameTransfer` leaves every session field but `mGpuSync->mReleaseValue` as it was,
on any session and under either backend. -/
theorem C12_only_the_gpu_release_counter_moves (g g2 : Statics) (memSize address : Nat)
    (direction : Direction) (a : CtorAnswers) (s : Session) (t : List Call)
    (calls : List FrameCall) (g3 : Statics) (s3 : Session) (a3 : TransferAnswers)
    (hA : g.mUseDvp = true)
    (hnew : VideoFrameTransfer.new g memSize address direction a = (.ret s, t))
    (hA2 : g2.mUseDvp = true) :
    ∃ ext gpu, s.mExtSync = some ext ∧ s.mGpuSync = some gpu ∧
      ext.mAcquireValue = 0 ∧ ext.mReleaseValue = 0 ∧
      gpu.mAcquireValue = 0 ∧ gpu.mReleaseValue = 0 ∧
      (frameCalls g2 s calls).1 = true ∧
      (∃ v, (frameCalls g2 s calls).2.1
        = { s with mGpuSync := some { gpu with mReleaseValue := v } }) ∧
      (∀ src srcSync value timeout dst dstSync rel start lines status,
        Call.dvpMemcpyLined src srcSync value timeout dst dstSync rel start lines status ∈
          (frameCalls g2 s calls).2.2 →
        srcSync = ext.mDvpSync ∧ value = 0) ∧
      (VideoFrameTransfer.performFrameTransfer g3 s3 a3).2.1.mDirection = s3.mDirection ∧
      (VideoFrameTransfer.performFrameTransfer g3 s3 a3).2.1.mBuffer = s3.mBuffer ∧
      (VideoFrameTransfer.performFrameTransfer g3 s3 a3).2.1.mMemSize = s3.mMemSize ∧
      (VideoFrameTransfer.performFrameTransfer g3 s3 a3).2.1.mDvpSysMemHandle
        = s3.mDvpSysMemHandle ∧
      (VideoFrameTransfer.performFrameTransfer g3 s3 a3).2.1.mBufferHandle
        = s3.mBufferHandle ∧
      (VideoFrameTransfer.performFrameTransfer g3 s3 a3).2.1.mExtSync = s3.mExtSync ∧
      (VideoFrameTransfer.performFrameTransfer g3 s3 a3).2.1.mGpuSync.map
          (fun i => (i.mSem, i.mAcquireValue, i.mDvpSync))
        = s3.mGpuSync.map (fun i => (i.mSem, i.mAcquireValue, i.mDvpSync)) := by
  have hsync := new_dvp_sync_objects g memSize address direction a s t hA hnew
  obtain ⟨ext, hext, hea, her⟩ : ∃ ext : SyncInfo, s.mExtSync = some ext ∧
      ext.mAcquireValue = 0 ∧ ext.mReleaseValue = 0 := ⟨_, hsync.1, rfl, rfl⟩
  obtain ⟨gpu, hgpu, hga, hgr⟩ : ∃ gpu : SyncInfo, s.mGpuSync = some gpu ∧
      gpu.mAcquireValue = 0 ∧ gpu.mReleaseValue = 0 := ⟨_, hsync.2, rfl, rfl⟩
  have hs : ({ s with mGpuSync := some { gpu with mReleaseValue := 0 } } : Session) = s := by
    cases s
    cases gpu
    simp only at hgpu hgr
    subst hgr
    subst hgpu
    rfl
  have key := frameCalls_keeps g2 s gpu ext hA2 hext calls 0
  rw [hs] at key
  obtain ⟨k1, k2, k3⟩ := key
  refine ⟨ext, gpu, hext, hgpu, hea, her, hga, hgr, k1, k2, ?_,
    performFrameTransfer_frame g3 s3 a3⟩
  intro src srcSync value timeout dst dstSync rel start lines status hmem
  obtain ⟨m1, m2⟩ := k3 _ _ _ _ _ _ _ _ _ _ hmem
  refine ⟨m1, ?_⟩
  rcases m2 with h | h
  · rw [h, hea]
  · rw [h, her]

/-- C12 at a concrete input: the session constructed on `quadroStatics` under `ctorAllOk`,
then the calls of `twoFrames`. -/
theorem C12_only_the_gpu_release_counter_moves_witness :
    quadroStatics.mUseDvp = true ∧
    VideoFrameTransfer.new quadroStatics frameBytes 65536 .CPUtoGPU ctorAllOk
      = (.ret quadroSession, quadroCtorTrace) ∧
    frameCalls quadroStatics quadroSession twoFrames
      = (true, { quadroSession with mGpuSync := some ⟨8192, 2, 0, 22⟩ },
         [.dvpMapBufferWaitAPI 11, .dvpMapBufferEndAPI 11,
          .dvpBegin, .dvpMapBufferWaitDVP 11,
          .dvpMemcpyLined 31 21 0 DVP_TIMEOUT_IGNORED 11 22 1 0 1080 0,
          .dvpMapBufferEndDVP 11, .dvpEnd,
          .dvpBegin, .dvpMapBufferWaitDVP 11,
          .dvpMemcpyLined 31 21 0 DVP_TIMEOUT_IGNORED 11 22 2 0 1080 5,
          .dvpMapBufferEndDVP 11, .dvpEnd]) ∧
    (frameCalls quadroStatics quadroSession twoFrames).1 = true := by
  refine ⟨rfl, by decide, by decide, ?_⟩
  obtain ⟨_, _, _, _, _, _, _, _, h, _⟩ :=
    C12_only_the_gpu_release_counter_moves quadroStatics quadroStatics frameBytes 65536
      .CPUtoGPU ctorAllOk quadroSession quadroCtorTrace twoFrames quadroStatics
      readbackSession ⟨0, 0, 0⟩ rfl (by decide) rfl
  exact h

end BlackMagic
